import Mathlib

/-!
Verification of the transactional approval-and-ledger core of the
`logistic_demo_be` backend (Go, gorm/PostgreSQL), as a shallow embedding.

Modelling conventions, used consistently below:
* UUIDs are abstract identifiers, modelled as `Nat` (the `uuid.Parse` step at
  the HTTP boundary is elided: service functions take already-parsed ids).
* `time.Time` instants are abstract, modelled as `Nat`; the formatted date
  string `time.Now().Format("20060102")` is passed in as a `today : String`
  parameter, since wall-clock time is environmental.
* Money and tax rates (`shopspring/decimal`, and `float64` unit prices fed
  through `decimal.NewFromFloat`) are modelled as exact rationals `Rat`;
  no claim below concerns floating-point rounding.
* A gorm `db.Transaction(fn)` runs `fn` and commits its writes when `fn`
  returns nil, rolling every write back when `fn` returns an error; the
  embedding makes that explicit by having each transaction body return
  `Except ApprovalError DBState` and each service entry point keep the
  original state on `Except.error` (gorm's documented commit/rollback
  behaviour).
* JSON snapshot parsing (`json.Unmarshal` on `ApprovalRequest.RequestData`,
  with ignored errors, then `uuid.Parse` / `decimal.NewFromString` on the
  string fields): a field is modelled as `Option _`, where `none` stands for
  the empty-or-unparseable cases, which the Go code treats identically.
-/

namespace Backend

/-! ## Enum constants (internal/model) -/

def ApprovalPending : String := "PENDING"

def ApprovalApproved : String := "APPROVED"

def ApprovalRejected : String := "REJECTED"

def ApprovalReqTypeCreateOrder : String := "CREATE_ORDER"

def ApprovalReqTypeCreateProduct : String := "CREATE_PRODUCT"

def ApprovalReqTypeCreateExpense : String := "CREATE_EXPENSE"

def OrderTypeImport : String := "IMPORT"

def OrderTypeExport : String := "EXPORT"

def OrderStatusPendingApproval : String := "PENDING_APPROVAL"

def OrderStatusCompleted : String := "COMPLETED"

def OrderStatusRejected : String := "REJECTED"

def TxTypeIn : String := "IN"

def TxTypeOut : String := "OUT"

def RefTypeOrderImport : String := "ORDER_IMPORT"

def RefTypeOrderExport : String := "ORDER_EXPORT"

def RefTypeExpense : String := "EXPENSE"

def ActionCreateOrderIn : String := "CREATE_ORDER_IMPORT"

def ActionCreateOrderOut : String := "CREATE_ORDER_EXPORT"

def ActionCreateApprovalRequest : String := "CREATE_APPROVAL_REQUEST"

def ActionApproveRequest : String := "APPROVE_REQUEST"

def ActionRejectRequest : String := "REJECT_REQUEST"

def ActionCreateInvoiceFromApproval : String := "CREATE_INVOICE_FROM_APPROVAL"

/-! ## Data model (internal/model) -/

/-- Parsed view of the JSON snapshot stored in `ApprovalRequest.RequestData`
(the anonymous `struct { TaxRuleID string; SideFees string }` of
`executeOrderApproval`): `none` models an empty or unparseable field. -/
structure ReqData where
  taxRuleID : Option Nat
  sideFees : Option Rat
deriving DecidableEq

/-- model.ApprovalRequest (internal/model/approval_request.go). -/
structure ApprovalRequest where
  id : Nat
  requestType : String
  referenceID : Nat
  requestData : ReqData
  status : String
  requestedBy : Option Nat
  approvedBy : Option Nat
  approvedAt : Option Nat
  rejectionReason : String
deriving DecidableEq

/-- model.Product (internal/model/inventory.go). -/
structure Product where
  id : Nat
  sku : String
  name : String
  currentStock : Int
  price : Rat
deriving DecidableEq

/-- model.Order (internal/model/inventory.go). -/
structure Order where
  id : Nat
  orderCode : String
  type : String
  status : String
  note : String
deriving DecidableEq

/-- model.OrderItem (internal/model/inventory.go). -/
structure OrderItem where
  orderID : Nat
  productID : Nat
  quantity : Int
  unitPrice : Rat
deriving DecidableEq

/-- model.InventoryTransaction (internal/model/inventory.go). -/
structure InventoryTransaction where
  productID : Nat
  orderID : Option Nat
  transactionType : String
  quantityChanged : Int
  stockAfter : Int
deriving DecidableEq

/-- model.TaxRule (temporal fields omitted: the approval flow looks a rule up
by primary key only). -/
structure TaxRule where
  id : Nat
  rate : Rat
deriving DecidableEq

/-- model.Invoice (internal/model/partner.go). -/
structure Invoice where
  id : Nat
  invoiceNo : String
  referenceType : String
  referenceID : Nat
  taxRuleID : Option Nat
  subtotal : Rat
  taxAmount : Rat
  sideFees : Rat
  totalAmount : Rat
  approvalStatus : String
  approvedBy : Option Nat
  approvedAt : Option Nat
  note : String
deriving DecidableEq

/-- model.Expense (fields read by `executeExpenseApproval`). -/
structure Expense where
  id : Nat
  convertedAmountUSD : Rat
  vatAmount : Rat
  fctAmount : Rat
  description : String
deriving DecidableEq

/-- model.AuditLog (internal/model/audit.go); the JSON `Details` blob is not
inspected by any claim and is elided. -/
structure AuditLog where
  userID : Option Nat
  action : String
  entityID : Nat
  entityName : String
deriving DecidableEq

/-- The committed relational state: one list per table. -/
structure DBState where
  approvals : List ApprovalRequest
  orders : List Order
  orderItems : List OrderItem
  products : List Product
  invTxs : List InventoryTransaction
  invoices : List Invoice
  taxRules : List TaxRule
  expenses : List Expense
  audits : List AuditLog
deriving DecidableEq

/-- Error taxonomy of the approval service (each constructor corresponds to
one `fmt.Errorf` site in approval_service.go / inventory_service.go). -/
inductive ApprovalError where
  | notFound
  | alreadyResolved (status : String)
  | orderNotFound
  | expenseNotFound
  | productNotFound (productID : Nat)
  | insufficientStock (name : String) (current want : Int)
  | unknownRequestType (t : String)
  | duplicateOrderCode
  | reloadFailed
deriving DecidableEq

/-! ## Row lookups and updates (gorm query helpers) -/

/-- `tx.First(&approval, "id = ?", id)`. -/
def findApproval (st : DBState) (id : Nat) : Option ApprovalRequest :=
  st.approvals.find? (fun a => a.id == id)

/-- `tx.Preload("Items").First(&order, "id = ?", id)` (the row part). -/
def findOrder (st : DBState) (id : Nat) : Option Order :=
  st.orders.find? (fun o => o.id == id)

/-- `Preload("Items")`: the item rows belonging to an order. -/
def itemsOfOrder (st : DBState) (orderID : Nat) : List OrderItem :=
  st.orderItems.filter (fun it => it.orderID == orderID)

/-- `tx.Clauses(clause.Locking{Strength: "UPDATE"}).Where("id = ?", id).First(&product)`
(the returned row; lock acquisition is discussed in the concurrency model below). -/
def findProduct (st : DBState) (id : Nat) : Option Product :=
  st.products.find? (fun p => p.id == id)

/-- `tx.First(&taxRule, "id = ?", id)`. -/
def findTaxRule (st : DBState) (id : Nat) : Option TaxRule :=
  st.taxRules.find? (fun r => r.id == id)

/-- `tx.First(&expense, "id = ?", id)`. -/
def findExpense (st : DBState) (id : Nat) : Option Expense :=
  st.expenses.find? (fun e => e.id == id)

/-- `tx.Model(&product).Update("current_stock", stockAfter)`. -/
def updateProductStock (st : DBState) (productID : Nat) (stockAfter : Int) : DBState :=
  { st with products :=
      st.products.map (fun p =>
        if p.id == productID then { p with currentStock := stockAfter } else p) }

/-- `tx.Save(&approval)`: UPDATE of the full row by primary key. -/
def updateApprovalRow (st : DBState) (a : ApprovalRequest) : DBState :=
  { st with approvals := st.approvals.map (fun x => if x.id == a.id then a else x) }

/-- `tx.Model(&model.Order{}).Where("id = ?", id).Update("status", s)`. -/
def updateOrderStatus (st : DBState) (orderID : Nat) (status : String) : DBState :=
  { st with orders :=
      st.orders.map (fun o =>
        if o.id == orderID then { o with status := status } else o) }

/-! ## Invoice number allocation (approval_service.go generateInvoiceNo) -/

/-- The SQL side effects of `generateInvoiceNo`, in issue order. -/
inductive SqlEffect where
  | advisoryLock (key : Int)
  | countInvoicesLike (pattern : String)
deriving DecidableEq

structure GenInvoiceNoResult where
  effects : List SqlEffect
  invoiceNo : String
deriving DecidableEq

/-- `fmt.Sprintf("%05d", n)`: decimal digits of `n`, left-padded with zeros to
a minimum width of 5. -/
def pad5 (n : Nat) : String :=
  let s := toString n
  String.mk (List.replicate (5 - s.length) '0') ++ s

/-- generateInvoiceNo (approval_service.go:526-541): builds the day string
`"INV-" + today + "-"`, issues `SELECT pg_advisory_xact_lock(hashtext(?))` on
it, counts invoices whose `invoice_no LIKE` it followed by `%`, and returns it
followed by the zero-padded count+1. `hashtext` is PostgreSQL's string hash,
kept abstract; `today` is `time.Now().Format("20060102")`. -/
def generateInvoiceNo (hashtext : String → Int) (today : String)
    (invoices : List Invoice) : GenInvoiceNoResult :=
  let pfx := "INV-" ++ today ++ "-"
  let count := (invoices.filter (fun inv => inv.invoiceNo.startsWith pfx)).length
  { effects := [SqlEffect.advisoryLock (hashtext pfx), SqlEffect.countInvoicesLike pfx],
    invoiceNo := pfx ++ pad5 (count + 1) }

/-! ## Order approval executor (approval_service.go executeOrderApproval) -/

/-- The write part of one iteration of `executeOrderApproval`'s item loop
(approval_service.go:360-388): compute `quantityChanged = quantity*modifier`
and `stockAfter = current_stock + quantityChanged`, write the stock back, and
append one `InventoryTransaction` row carrying `stockAfter`. -/
def applyOrderItem (orderType : String) (orderID : Nat) (item : OrderItem)
    (product : Product) (st : DBState) : DBState :=
  let modifier : Int := if orderType = OrderTypeExport then -1 else 1
  let quantityChanged := item.quantity * modifier
  let stockAfter := product.currentStock + quantityChanged
  let st1 := updateProductStock st item.productID stockAfter
  let txType := if orderType = OrderTypeExport then TxTypeOut else TxTypeIn
  { st1 with invTxs := st1.invTxs ++
    [{ productID := product.id, orderID := some orderID, transactionType := txType,
       quantityChanged := quantityChanged, stockAfter := stockAfter }] }

/-- The per-item loop of `executeOrderApproval` (approval_service.go:347-389):
for each order item, load the product row FOR UPDATE, reject an EXPORT that
exceeds the current stock, otherwise apply the item's stock write and ledger
append. -/
def processOrderItems (orderType : String) (orderID : Nat) (items : List OrderItem)
    (st : DBState) : Except ApprovalError DBState :=
  match items with
  | [] => Except.ok st
  | item :: rest =>
    match findProduct st item.productID with
    | none => Except.error (ApprovalError.productNotFound item.productID)
    | some product =>
      if orderType = OrderTypeExport ∧ product.currentStock < item.quantity then
        Except.error (ApprovalError.insufficientStock product.name product.currentStock item.quantity)
      else
        processOrderItems orderType orderID rest (applyOrderItem orderType orderID item product st)

/-- The invoice row built by `executeOrderApproval` (approval_service.go:
396-446): subtotal summed from the items' price snapshots, side fees and tax
rule id parsed from the request snapshot, tax rate resolved by primary key in
the approval-time state `st2`, number allocated by `generateInvoiceNo` over
`st2`'s invoices. -/
def orderInvoiceRecord (hashtext : String → Int) (today : String) (freshInvoiceID : Nat)
    (approval : ApprovalRequest) (approverID : Nat) (order : Order)
    (items : List OrderItem) (st2 : DBState) : Invoice :=
  let reqData := approval.requestData
  let subtotal := items.foldl (fun acc item => acc + item.unitPrice * (item.quantity : Rat)) 0
  let sideFees := match reqData.sideFees with
    | some parsed => parsed
    | none => 0
  let taxResolved : Option Nat × Rat :=
    match reqData.taxRuleID with
    | none => (none, 0)
    | some parsed =>
      match findTaxRule st2 parsed with
      | none => (some parsed, 0)
      | some taxRule => (some parsed, subtotal * taxRule.rate)
  let totalAmount := subtotal + taxResolved.2 + sideFees
  let gen := generateInvoiceNo hashtext today st2.invoices
  let refType := if order.type = OrderTypeExport then RefTypeOrderExport else RefTypeOrderImport
  { id := freshInvoiceID, invoiceNo := gen.invoiceNo, referenceType := refType,
    referenceID := order.id, taxRuleID := taxResolved.1, subtotal := subtotal,
    taxAmount := taxResolved.2, sideFees := sideFees, totalAmount := totalAmount,
    approvalStatus := ApprovalApproved, approvedBy := some approverID,
    approvedAt := approval.approvedAt, note := order.note }

/-- The tail of `executeOrderApproval` after the stock loop succeeded
(approval_service.go:391-469): set the order COMPLETED, build the invoice
row, insert it and its audit row. `items` is the item list loaded with the
order before the loop. -/
def buildOrderInvoice (hashtext : String → Int) (today : String) (freshInvoiceID : Nat)
    (approval : ApprovalRequest) (approverID : Nat) (order : Order)
    (items : List OrderItem) (st1 : DBState) : DBState :=
  let st2 := updateOrderStatus st1 order.id OrderStatusCompleted
  let invoice := orderInvoiceRecord hashtext today freshInvoiceID approval approverID
    order items st2
  let st3 := { st2 with invoices := st2.invoices ++ [invoice] }
  { st3 with audits := st3.audits ++
    [{ userID := some approverID, action := ActionCreateInvoiceFromApproval,
       entityID := invoice.id, entityName := invoice.invoiceNo }] }

/-- executeOrderApproval (approval_service.go:333-470): load the order with
its items, adjust stock per item, then run the invoice tail. -/
def executeOrderApproval (hashtext : String → Int) (today : String) (freshInvoiceID : Nat)
    (approval : ApprovalRequest) (approverID : Nat) (st : DBState) :
    Except ApprovalError DBState :=
  match findOrder st approval.referenceID with
  | none => Except.error ApprovalError.orderNotFound
  | some order =>
    let items := itemsOfOrder st order.id
    match processOrderItems order.type order.id items st with
    | Except.error e => Except.error e
    | Except.ok st1 =>
      Except.ok (buildOrderInvoice hashtext today freshInvoiceID approval approverID
        order items st1)

/-- executeExpenseApproval (approval_service.go:473-524). -/
def executeExpenseApproval (hashtext : String → Int) (today : String) (freshInvoiceID : Nat)
    (approval : ApprovalRequest) (approverID : Nat) (st : DBState) :
    Except ApprovalError DBState :=
  match findExpense st approval.referenceID with
  | none => Except.error ApprovalError.expenseNotFound
  | some expense =>
    let gen := generateInvoiceNo hashtext today st.invoices
    let subtotal := expense.convertedAmountUSD
    let taxAmount := expense.vatAmount + expense.fctAmount
    let totalAmount := subtotal + taxAmount
    let invoice : Invoice :=
      { id := freshInvoiceID, invoiceNo := gen.invoiceNo, referenceType := RefTypeExpense,
        referenceID := expense.id, taxRuleID := none, subtotal := subtotal,
        taxAmount := taxAmount, sideFees := 0, totalAmount := totalAmount,
        approvalStatus := ApprovalApproved, approvedBy := some approverID,
        approvedAt := approval.approvedAt, note := expense.description }
    let st1 := { st with invoices := st.invoices ++ [invoice] }
    Except.ok { st1 with audits := st1.audits ++
      [{ userID := some approverID, action := ActionCreateInvoiceFromApproval,
         entityID := invoice.id, entityName := gen.invoiceNo }] }

/-- executeApproval (approval_service.go:313-325): type dispatch. -/
def executeApproval (hashtext : String → Int) (today : String) (freshInvoiceID : Nat)
    (approval : ApprovalRequest) (approverID : Nat) (st : DBState) :
    Except ApprovalError DBState :=
  if approval.requestType = ApprovalReqTypeCreateOrder then
    executeOrderApproval hashtext today freshInvoiceID approval approverID st
  else if approval.requestType = ApprovalReqTypeCreateExpense then
    executeExpenseApproval hashtext today freshInvoiceID approval approverID st
  else if approval.requestType = ApprovalReqTypeCreateProduct then
    Except.ok st
  else
    Except.error (ApprovalError.unknownRequestType approval.requestType)

/-! ## ApproveRequest / RejectRequest (approval_service.go) -/

/-- The part of ApproveRequest's transaction body after the PENDING check
(approval_service.go:193-223): set APPROVED + approver + timestamp, `Save`
the row, run the executor, append the approval audit row. Factored out so
the concurrency model below can replay it against a stale row snapshot. -/
def approveAfterCheck (hashtext : String → Int) (today : String) (now : Nat)
    (freshInvoiceID : Nat) (approverID : Nat) (approval : ApprovalRequest)
    (st : DBState) : Except ApprovalError DBState :=
  let approved := { approval with
    status := ApprovalApproved
    approvedBy := some approverID
    approvedAt := some now }
  let st1 := updateApprovalRow st approved
  match executeApproval hashtext today freshInvoiceID approved approverID st1 with
  | Except.error e => Except.error e
  | Except.ok st2 =>
    Except.ok { st2 with audits := st2.audits ++
      [{ userID := some approverID, action := ActionApproveRequest,
         entityID := approved.id, entityName := approved.requestType }] }

/-- The transaction body of ApproveRequest (approval_service.go:184-224):
`tx.First` the row (a plain SELECT — the code passes no
`clause.Locking` here, unlike the product reads), fail unless the status is
PENDING, then run `approveAfterCheck`. -/
def approveTxBody (hashtext : String → Int) (today : String) (now : Nat)
    (freshInvoiceID : Nat) (approvalID approverID : Nat) (st : DBState) :
    Except ApprovalError DBState :=
  match findApproval st approvalID with
  | none => Except.error ApprovalError.notFound
  | some approval =>
    if approval.status = ApprovalPending then
      approveAfterCheck hashtext today now freshInvoiceID approverID approval st
    else
      Except.error (ApprovalError.alreadyResolved approval.status)

/-- The fields of ApprovalRequestResponse surfaced by `toApprovalResponse`
(string rendering of uuids/timestamps elided; `none` maps to a null JSON
field exactly as the Go pointer fields do). -/
structure ApprovalRequestResponse where
  id : Nat
  requestType : String
  referenceID : Nat
  status : String
  requestedBy : Option Nat
  approvedBy : Option Nat
  approvedAt : Option Nat
  rejectionReason : String
deriving DecidableEq

/-- toApprovalResponse (approval_service.go:545-576). -/
def toApprovalResponse (a : ApprovalRequest) : ApprovalRequestResponse :=
  { id := a.id, requestType := a.requestType, referenceID := a.referenceID,
    status := a.status, requestedBy := a.requestedBy, approvedBy := a.approvedBy,
    approvedAt := a.approvedAt, rejectionReason := a.rejectionReason }

/-- ApproveRequest (approval_service.go:172-236): run the transaction body —
gorm commits its writes on nil and rolls every write back on error, so the
committed state is the body's result on success and the input state on
failure — then reload the row and convert it to a response. -/
def approveRequest (hashtext : String → Int) (today : String) (now : Nat)
    (freshInvoiceID : Nat) (approvalID approverID : Nat) (st : DBState) :
    Except ApprovalError ApprovalRequestResponse × DBState :=
  match approveTxBody hashtext today now freshInvoiceID approvalID approverID st with
  | Except.error e => (Except.error e, st)
  | Except.ok st1 =>
    match findApproval st1 approvalID with
    | none => (Except.error ApprovalError.reloadFailed, st1)
    | some a => (Except.ok (toApprovalResponse a), st1)

/-- The transaction body of RejectRequest (approval_service.go:250-295):
plain `tx.First`, PENDING check, set REJECTED + approver + timestamp +
reason, `Save`, flip a CREATE_ORDER's order to REJECTED, append the audit
row. -/
def rejectTxBody (now : Nat) (approvalID approverID : Nat) (reason : String)
    (st : DBState) : Except ApprovalError DBState :=
  match findApproval st approvalID with
  | none => Except.error ApprovalError.notFound
  | some approval =>
    if approval.status = ApprovalPending then
      let rejected := { approval with
        status := ApprovalRejected
        approvedBy := some approverID
        approvedAt := some now
        rejectionReason := reason }
      let st1 := updateApprovalRow st rejected
      let st2 :=
        if approval.requestType = ApprovalReqTypeCreateOrder then
          updateOrderStatus st1 approval.referenceID OrderStatusRejected
        else st1
      Except.ok { st2 with audits := st2.audits ++
        [{ userID := some approverID, action := ActionRejectRequest,
           entityID := approval.id, entityName := approval.requestType }] }
    else
      Except.error (ApprovalError.alreadyResolved approval.status)

/-- RejectRequest (approval_service.go:238-307), with the same
commit-on-nil / rollback-on-error transaction semantics as ApproveRequest. -/
def rejectRequest (now : Nat) (approvalID approverID : Nat) (reason : String)
    (st : DBState) : Except ApprovalError ApprovalRequestResponse × DBState :=
  match rejectTxBody now approvalID approverID reason st with
  | Except.error e => (Except.error e, st)
  | Except.ok st1 =>
    match findApproval st1 approvalID with
    | none => (Except.error ApprovalError.reloadFailed, st1)
    | some a => (Except.ok (toApprovalResponse a), st1)

/-! ## CreateOrder (inventory service, approval-workflow version) -/

/-- DTO OrderItemRequest; the binding tags `required,gt=0` on Quantity and
UnitPrice are enforced by the HTTP layer before the service runs. -/
structure OrderItemRequest where
  productID : Nat
  quantity : Int
  unitPrice : Rat
deriving DecidableEq

/-- DTO CreateOrderRequest (tax_rule_id / side_fees are carried verbatim into
the approval snapshot; parsing conventions as in `ReqData`). -/
structure CreateOrderRequest where
  orderCode : String
  type : String
  note : String
  items : List OrderItemRequest
  taxRuleID : Option Nat
  sideFees : Option Rat
deriving DecidableEq

/-- The item loop of CreateOrder (src/unnamed/part_005:278-307): validate that
each product exists (no lock, no stock change) and insert the order item rows;
also collects the product names used by the audit entry. -/
def insertOrderItems (orderID : Nat) (items : List OrderItemRequest) (st : DBState) :
    Except ApprovalError (DBState × List String) :=
  match items with
  | [] => Except.ok (st, [])
  | itemReq :: rest =>
    match findProduct st itemReq.productID with
    | none => Except.error (ApprovalError.productNotFound itemReq.productID)
    | some product =>
      let st1 := { st with orderItems := st.orderItems ++
        [{ orderID := orderID, productID := itemReq.productID,
           quantity := itemReq.quantity, unitPrice := itemReq.unitPrice }] }
      match insertOrderItems orderID rest st1 with
      | Except.error e => Except.error e
      | Except.ok (st2, names) => Except.ok (st2, product.name :: names)

/-- The transaction body of CreateOrder (src/unnamed/part_005:246-377):
duplicate-code check, insert the PENDING_APPROVAL order and its items (no
stock, inventory-transaction or invoice effect), write the order audit entry,
insert the PENDING ApprovalRequest carrying the JSON snapshot, write its audit
entry. `freshOrderID` / `freshApprovalID` model `gen_random_uuid()`. -/
def createOrderTxBody (freshOrderID freshApprovalID : Nat) (userID : Option Nat)
    (req : CreateOrderRequest) (st : DBState) : Except ApprovalError DBState :=
  if st.orders.any (fun o => o.orderCode == req.orderCode) then
    Except.error ApprovalError.duplicateOrderCode
  else
    let order : Order := { id := freshOrderID, orderCode := req.orderCode,
                           type := req.type, status := OrderStatusPendingApproval,
                           note := req.note }
    let st1 := { st with orders := st.orders ++ [order] }
    match insertOrderItems order.id req.items st1 with
    | Except.error e => Except.error e
    | Except.ok (st2, names) =>
      let actionType := if req.type = OrderTypeExport then ActionCreateOrderOut
                        else ActionCreateOrderIn
      let orderAudit : AuditLog :=
        { userID := userID, action := actionType, entityID := order.id,
          entityName := String.intercalate ", " names }
      let st3 := { st2 with audits := st2.audits ++ [orderAudit] }
      let approvalReq : ApprovalRequest :=
        { id := freshApprovalID, requestType := ApprovalReqTypeCreateOrder,
          referenceID := order.id,
          requestData := { taxRuleID := req.taxRuleID, sideFees := req.sideFees },
          status := ApprovalPending, requestedBy := userID, approvedBy := none,
          approvedAt := none, rejectionReason := "" }
      let st4 := { st3 with approvals := st3.approvals ++ [approvalReq] }
      let approvalAudit : AuditLog :=
        { userID := userID, action := ActionCreateApprovalRequest,
          entityID := approvalReq.id, entityName := ApprovalReqTypeCreateOrder }
      Except.ok { st4 with audits := st4.audits ++ [approvalAudit] }

/-- CreateOrder with the gorm transaction wrapper (commit on nil, rollback on
error). -/
def createOrder (freshOrderID freshApprovalID : Nat) (userID : Option Nat)
    (req : CreateOrderRequest) (st : DBState) :
    Except ApprovalError Unit × DBState :=
  match createOrderTxBody freshOrderID freshApprovalID userID req st with
  | Except.error e => (Except.error e, st)
  | Except.ok st1 => (Except.ok (), st1)

/-! ## Transaction manager (internal/repository/tx_manager.go) -/

/-- A gorm connection: either the root `*gorm.DB` connection pool or a live
transaction identified by its handle. -/
inductive GormConn where
  | root
  | txn (id : Nat)
deriving DecidableEq

/-- The execution context, as far as the transaction machinery reads it: the
value stored under the private key `txKey`, if any. -/
structure Ctx where
  txHandle : Option Nat
deriving DecidableEq

/-- gorm's `DB.Transaction` begin step: invoked on the root connection pool it
begins a brand-new database transaction; invoked on a connection that is
already a transaction it creates a savepoint and stays on the same
transaction (gorm's documented nested-transaction support, which is keyed on
the receiver, not on the context). `fresh` is the handle the database assigns
to a newly begun transaction. -/
def gormBeginConn (receiver : GormConn) (fresh : Nat) : GormConn :=
  match receiver with
  | GormConn.root => GormConn.txn fresh
  | GormConn.txn i => GormConn.txn i

/-- RunInTx (tx_manager.go:26-31): `t.db.WithContext(ctx).Transaction(fn)` —
the receiver is always the root `*gorm.DB` held by the manager (`WithContext`
only attaches the context, it does not switch to a transaction stored in it),
and the callback receives `context.WithValue(ctx, txKey, tx)` carrying the
handle of the transaction that was just begun. -/
def runInTxCtx (fresh : Nat) (ctx : Ctx) : Ctx :=
  match gormBeginConn GormConn.root fresh with
  | GormConn.txn i => { ctx with txHandle := some i }
  | GormConn.root => ctx

/-- GetDB (tx_manager.go:34-39): use the transaction stored in the context if
present, otherwise fall back to the root connection. -/
def getDB (ctx : Ctx) (rootDB : GormConn) : GormConn :=
  match ctx.txHandle with
  | some i => GormConn.txn i
  | none => rootDB

/-! ## Concurrency model for two racing ApproveRequest calls

ApproveRequest's `tx.First(&approval, ...)` (approval_service.go:185) carries
no `clause.Locking`, so under PostgreSQL READ COMMITTED it takes no row lock
and returns the latest version committed before the statement ran. The
subsequent `tx.Save` is an `UPDATE ... WHERE id = ?`; if a concurrent
transaction has meanwhile committed its own update of the row, the UPDATE
waits for that commit and then re-applies against the new version — its WHERE
clause (primary key only) still matches, so it succeeds rather than failing.
Two racing transactions T1, T2 are therefore modelled by: each takes its
status snapshot from the state committed at its read, and the loser's write
phase applies to the state the winner committed. -/

/-- The racy interleaving `read1, read2, commit1, commit2`: both status
snapshots are taken against the initial committed state (both reads run
before either transaction commits), then T1's write phase commits, then
T2's. Returns T1's outcome, T2's outcome, and the final committed state. -/
def approveRace (hashtext : String → Int) (today : String) (now : Nat)
    (freshInvoiceID1 freshInvoiceID2 : Nat) (approvalID approverID1 approverID2 : Nat)
    (st0 : DBState) :
    Except ApprovalError DBState × Except ApprovalError DBState × DBState :=
  let snapshot1 := findApproval st0 approvalID
  let snapshot2 := findApproval st0 approvalID
  let outcome1 : Except ApprovalError DBState :=
    match snapshot1 with
    | none => Except.error ApprovalError.notFound
    | some a =>
      if a.status = ApprovalPending then
        approveAfterCheck hashtext today now freshInvoiceID1 approverID1 a st0
      else Except.error (ApprovalError.alreadyResolved a.status)
  let st1 := match outcome1 with
    | Except.ok s => s
    | Except.error _ => st0
  let outcome2 : Except ApprovalError DBState :=
    match snapshot2 with
    | none => Except.error ApprovalError.notFound
    | some a =>
      if a.status = ApprovalPending then
        approveAfterCheck hashtext today now freshInvoiceID2 approverID2 a st1
      else Except.error (ApprovalError.alreadyResolved a.status)
  let st2 := match outcome2 with
    | Except.ok s => s
    | Except.error _ => st1
  (outcome1, outcome2, st2)

/-- Whether an `Except` is a success. -/
def exceptIsOk : Except ApprovalError DBState → Bool
  | Except.ok _ => true
  | Except.error _ => false

/-! ## Helper lemmas about row lookups and updates -/

theorem findProduct_updateProductStock (st : DBState) (target : Nat) (s : Int) (pid : Nat) :
    findProduct (updateProductStock st target s) pid =
      (findProduct st pid).map
        (fun p => if p.id == target then { p with currentStock := s } else p) := by
  unfold findProduct updateProductStock
  rw [List.find?_map]
  have hpred : ((fun p : Product => p.id == pid) ∘
      fun p => if p.id == target then { p with currentStock := s } else p) =
      (fun p : Product => p.id == pid) := by
    funext p
    by_cases h : p.id = target <;> simp [Function.comp, h]
  rw [hpred]

theorem findProduct_updateProductStock_ne (st : DBState) (target : Nat) (s : Int)
    (pid : Nat) (h : pid ≠ target) :
    findProduct (updateProductStock st target s) pid = findProduct st pid := by
  rw [findProduct_updateProductStock]
  cases hf : findProduct st pid with
  | none => rfl
  | some p =>
    have hp := List.find?_some hf
    simp only [beq_iff_eq] at hp
    simp [hp, h]

theorem findProduct_updateProductStock_self (st : DBState) (target : Nat) (s : Int)
    (p : Product) (h : findProduct st target = some p) :
    findProduct (updateProductStock st target s) target =
      some { p with currentStock := s } := by
  rw [findProduct_updateProductStock, h]
  have hp := List.find?_some h
  simp only [beq_iff_eq] at hp
  simp [hp]

theorem findOrder_updateOrderStatus (st : DBState) (target : Nat) (s : String) (oid : Nat) :
    findOrder (updateOrderStatus st target s) oid =
      (findOrder st oid).map
        (fun o => if o.id == target then { o with status := s } else o) := by
  unfold findOrder updateOrderStatus
  rw [List.find?_map]
  have hpred : ((fun o : Order => o.id == oid) ∘
      fun o => if o.id == target then { o with status := s } else o) =
      (fun o : Order => o.id == oid) := by
    funext o
    by_cases h : o.id = target <;> simp [Function.comp, h]
  rw [hpred]

theorem findOrder_updateOrderStatus_self (st : DBState) (target : Nat) (s : String)
    (o : Order) (h : findOrder st target = some o) :
    findOrder (updateOrderStatus st target s) target = some { o with status := s } := by
  rw [findOrder_updateOrderStatus, h]
  have ho := List.find?_some h
  simp only [beq_iff_eq] at ho
  simp [ho]

theorem findApproval_updateApprovalRow (st : DBState) (a : ApprovalRequest) (aid : Nat) :
    findApproval (updateApprovalRow st a) aid =
      (findApproval st aid).map (fun x => if x.id == a.id then a else x) := by
  unfold findApproval updateApprovalRow
  rw [List.find?_map]
  have hpred : ((fun x : ApprovalRequest => x.id == aid) ∘
      fun x => if x.id == a.id then a else x) =
      (fun x : ApprovalRequest => x.id == aid) := by
    funext x
    by_cases h : x.id = a.id <;> simp [Function.comp, h]
  rw [hpred]

theorem findApproval_updateApprovalRow_ne (st : DBState) (a : ApprovalRequest)
    (aid : Nat) (h : aid ≠ a.id) :
    findApproval (updateApprovalRow st a) aid = findApproval st aid := by
  rw [findApproval_updateApprovalRow]
  cases hf : findApproval st aid with
  | none => rfl
  | some x =>
    have hx := List.find?_some hf
    simp only [beq_iff_eq] at hx
    simp [hx, h]

theorem findApproval_updateApprovalRow_self (st : DBState) (a : ApprovalRequest)
    (x : ApprovalRequest) (h : findApproval st a.id = some x) :
    findApproval (updateApprovalRow st a) a.id = some a := by
  rw [findApproval_updateApprovalRow, h]
  have hx := List.find?_some h
  simp only [beq_iff_eq] at hx
  simp [hx]

theorem findProduct_mem (st : DBState) (pid : Nat) (p : Product)
    (h : findProduct st pid = some p) : p ∈ st.products :=
  List.mem_of_find?_eq_some h

theorem findProduct_id (st : DBState) (pid : Nat) (p : Product)
    (h : findProduct st pid = some p) : p.id = pid := by
  have := List.find?_some h
  simpa using this

theorem findApproval_id (st : DBState) (aid : Nat) (a : ApprovalRequest)
    (h : findApproval st aid = some a) : a.id = aid := by
  have := List.find?_some h
  simpa using this

theorem findOrder_id (st : DBState) (oid : Nat) (o : Order)
    (h : findOrder st oid = some o) : o.id = oid := by
  have := List.find?_some h
  simpa using this

theorem findProduct_set_invTxs (st : DBState) (ts : List InventoryTransaction) (pid : Nat) :
    findProduct { st with invTxs := ts } pid = findProduct st pid := rfl

theorem applyOrderItem_findProduct_ne (ty : String) (oid : Nat) (item : OrderItem)
    (product : Product) (st : DBState) (pid : Nat) (h : pid ≠ item.productID) :
    findProduct (applyOrderItem ty oid item product st) pid = findProduct st pid := by
  simp only [applyOrderItem]
  rw [findProduct_set_invTxs]
  exact findProduct_updateProductStock_ne st item.productID _ pid h

theorem applyOrderItem_findProduct_self (ty : String) (oid : Nat) (item : OrderItem)
    (product : Product) (st : DBState)
    (h : findProduct st item.productID = some product) :
    findProduct (applyOrderItem ty oid item product st) item.productID =
      some { product with currentStock :=
        product.currentStock + item.quantity * (if ty = OrderTypeExport then -1 else 1) } := by
  simp only [applyOrderItem]
  rw [findProduct_set_invTxs]
  exact findProduct_updateProductStock_self st item.productID _ product h

theorem applyOrderItem_invTxs (ty : String) (oid : Nat) (item : OrderItem)
    (product : Product) (st : DBState) :
    (applyOrderItem ty oid item product st).invTxs = st.invTxs ++
      [{ productID := product.id, orderID := some oid,
         transactionType := if ty = OrderTypeExport then TxTypeOut else TxTypeIn,
         quantityChanged := item.quantity * (if ty = OrderTypeExport then -1 else 1),
         stockAfter := product.currentStock +
           item.quantity * (if ty = OrderTypeExport then -1 else 1) }] := rfl

/-- The stock-adjustment loop touches only the products and inventory
transactions: every other table is unchanged. -/
theorem processOrderItems_frame (ty : String) (oid : Nat) :
    ∀ (items : List OrderItem) (st st' : DBState),
      processOrderItems ty oid items st = Except.ok st' →
      st'.orders = st.orders ∧ st'.approvals = st.approvals ∧
      st'.invoices = st.invoices ∧ st'.audits = st.audits ∧
      st'.taxRules = st.taxRules ∧ st'.expenses = st.expenses ∧
      st'.orderItems = st.orderItems := by
  intro items
  induction items with
  | nil =>
    intro st st' h
    simp only [processOrderItems] at h
    cases h
    exact ⟨rfl, rfl, rfl, rfl, rfl, rfl, rfl⟩
  | cons item rest ih =>
    intro st st' h
    simp only [processOrderItems] at h
    split at h
    · simp at h
    · rename_i product hfind
      split at h
      · simp at h
      · exact ih (applyOrderItem ty oid item product st) st' h

/-- If all stocks are non-negative and all processed quantities positive,
the stock-adjustment loop keeps every stock non-negative: an EXPORT item is
guarded by `current_stock >= quantity` under the product row lock, and any
other direction only adds the quantity. -/
theorem processOrderItems_nonneg (ty : String) (oid : Nat) :
    ∀ (items : List OrderItem) (st st' : DBState),
      (∀ p ∈ st.products, 0 ≤ p.currentStock) →
      (∀ it ∈ items, 0 < it.quantity) →
      processOrderItems ty oid items st = Except.ok st' →
      ∀ p ∈ st'.products, 0 ≤ p.currentStock := by
  intro items
  induction items with
  | nil =>
    intro st st' hst _ h
    simp only [processOrderItems] at h
    cases h
    exact hst
  | cons item rest ih =>
    intro st st' hst hq h
    simp only [processOrderItems] at h
    split at h
    · simp at h
    · rename_i product hfind
      split at h
      · simp at h
      · rename_i hguard
        refine ih _ _ ?_ (fun it hit => hq it (List.mem_cons_of_mem _ hit)) h
        intro p hp
        simp only [applyOrderItem, updateProductStock, List.mem_map] at hp
        obtain ⟨q, hqmem, rfl⟩ := hp
        have hq0 : (0 : Int) < item.quantity := hq item (List.mem_cons_self _ _)
        have hprod : 0 ≤ product.currentStock := hst product (findProduct_mem _ _ _ hfind)
        by_cases hid : q.id = item.productID
        · by_cases hty : ty = OrderTypeExport
          · have hle : item.quantity ≤ product.currentStock := by
              by_contra hlt
              exact hguard ⟨hty, by omega⟩
            simp [hid, hty]
            omega
          · simp [hid, hty]
            omega
        · simp [hid]
          exact hst q hqmem

/-- For a non-EXPORT (i.e. IMPORT) run with non-negative quantities, each
product's stock only increases. -/
theorem processOrderItems_mono (ty : String) (oid : Nat) (hty : ty ≠ OrderTypeExport) :
    ∀ (items : List OrderItem) (st st' : DBState),
      (∀ it ∈ items, 0 ≤ it.quantity) →
      processOrderItems ty oid items st = Except.ok st' →
      ∀ pid p, findProduct st pid = some p →
        ∃ q, findProduct st' pid = some q ∧ p.currentStock ≤ q.currentStock := by
  intro items
  induction items with
  | nil =>
    intro st st' _ h pid p hp
    simp only [processOrderItems] at h
    cases h
    exact ⟨p, hp, le_refl _⟩
  | cons item rest ih =>
    intro st st' hq h pid p hp
    simp only [processOrderItems] at h
    split at h
    · simp at h
    · rename_i product hfind
      split at h
      · simp at h
      · rename_i hguard
        by_cases hid : pid = item.productID
        · subst hid
          have hpq : product = p := by
            rw [hp] at hfind
            exact (Option.some_inj.mp hfind).symm
          subst hpq
          have hself := applyOrderItem_findProduct_self ty oid item product st hp
          obtain ⟨q, hfq, hle⟩ := ih _ _
            (fun it hit => hq it (List.mem_cons_of_mem _ hit)) h item.productID _ hself
          refine ⟨q, hfq, ?_⟩
          have hq0 : (0 : Int) ≤ item.quantity := hq item (List.mem_cons_self _ _)
          have hstep : product.currentStock ≤ product.currentStock +
              item.quantity * (if ty = OrderTypeExport then -1 else 1) := by
            simp [hty]
            omega
          exact le_trans hstep hle
        · exact ih _ _ (fun it hit => hq it (List.mem_cons_of_mem _ hit)) h pid p
            (by rw [applyOrderItem_findProduct_ne ty oid item product st pid hid]; exact hp)

/-- A membership-aware strengthening of `List.Forall₂.imp`. -/
theorem forall₂_imp_of_mem {α β : Type} {R S : α → β → Prop} :
    ∀ {l1 : List α} {l2 : List β}, List.Forall₂ R l1 l2 →
      (∀ a b, a ∈ l1 → R a b → S a b) → List.Forall₂ S l1 l2 := by
  intro l1 l2 h
  induction h with
  | nil => intro _; exact List.Forall₂.nil
  | cons hab _ ih =>
    intro himp
    exact List.Forall₂.cons (himp _ _ (List.mem_cons_self _ _) hab)
      (ih fun a b ha => himp a b (List.mem_cons_of_mem _ ha))

/-- Full characterization of a successful stock-adjustment loop for items
whose product references are pairwise distinct: each item's product stock
moves by quantity times the direction sign, exactly one ledger row is
appended per item carrying the written stock value, and all other products
are untouched. -/
theorem processOrderItems_trace (ty : String) (oid : Nat) :
    ∀ (items : List OrderItem) (st st' : DBState),
      (items.map OrderItem.productID).Nodup →
      processOrderItems ty oid items st = Except.ok st' →
      ((∀ it ∈ items, ∃ p, findProduct st it.productID = some p ∧
        findProduct st' it.productID =
          some { p with currentStock :=
            p.currentStock + it.quantity * (if ty = OrderTypeExport then -1 else 1) }) ∧
      (∃ trace, st'.invTxs = st.invTxs ++ trace ∧
        List.Forall₂ (fun (it : OrderItem) (t : InventoryTransaction) =>
          ∃ p, findProduct st it.productID = some p ∧
            t = { productID := it.productID, orderID := some oid,
                  transactionType := if ty = OrderTypeExport then TxTypeOut else TxTypeIn,
                  quantityChanged := it.quantity * (if ty = OrderTypeExport then -1 else 1),
                  stockAfter :=
                    p.currentStock + it.quantity * (if ty = OrderTypeExport then -1 else 1) })
          items trace) ∧
      (∀ pid, pid ∉ items.map OrderItem.productID →
        findProduct st' pid = findProduct st pid)) := by
  intro items
  induction items with
  | nil =>
    intro st st' _ h
    simp only [processOrderItems] at h
    cases h
    refine ⟨by simp, ⟨[], by simp, List.Forall₂.nil⟩, fun pid _ => rfl⟩
  | cons item rest ih =>
    intro st st' hnodup h
    have hnodup' : (item.productID :: rest.map OrderItem.productID).Nodup := by
      simpa using hnodup
    obtain ⟨hhead, htail⟩ := List.nodup_cons.mp hnodup'
    simp only [processOrderItems] at h
    split at h
    · simp at h
    · rename_i product hfind
      split at h
      · simp at h
      · rename_i hguard
        have hpid : product.id = item.productID := findProduct_id _ _ _ hfind
        obtain ⟨ihA, ⟨trace, htr, hforall⟩, ihC⟩ := ih _ _ htail h
        refine ⟨?_, ?_, ?_⟩
        · intro it hit
          rcases List.mem_cons.mp hit with hH | hT
          · subst hH
            refine ⟨product, hfind, ?_⟩
            rw [ihC it.productID hhead]
            exact applyOrderItem_findProduct_self ty oid it product st hfind
          · obtain ⟨p, hp, hp'⟩ := ihA it hT
            have hne : it.productID ≠ item.productID := by
              intro hcontra
              exact hhead (hcontra ▸ List.mem_map_of_mem OrderItem.productID hT)
            refine ⟨p, ?_, hp'⟩
            rw [← applyOrderItem_findProduct_ne ty oid item product st it.productID hne]
            exact hp
        · refine ⟨{ productID := item.productID,
                    orderID := some oid,
                    transactionType := if ty = OrderTypeExport then TxTypeOut else TxTypeIn,
                    quantityChanged := item.quantity * (if ty = OrderTypeExport then -1 else 1),
                    stockAfter := product.currentStock +
                      item.quantity * (if ty = OrderTypeExport then -1 else 1) } :: trace,
                  ?_, ?_⟩
          · rw [htr, applyOrderItem_invTxs, hpid]
            simp
          · refine List.Forall₂.cons ⟨product, hfind, rfl⟩ ?_
            refine forall₂_imp_of_mem hforall ?_
            intro it t hit hR
            obtain ⟨p, hp, hteq⟩ := hR
            have hne : it.productID ≠ item.productID := by
              intro hcontra
              exact hhead (hcontra ▸ List.mem_map_of_mem OrderItem.productID hit)
            refine ⟨p, ?_, hteq⟩
            rw [← applyOrderItem_findProduct_ne ty oid item product st it.productID hne]
            exact hp
        · intro pid hpm
          have hne : pid ≠ item.productID := by
            intro hcontra
            exact hpm (by simp [hcontra])
          have hmem : pid ∉ rest.map OrderItem.productID := by
            intro hcontra
            exact hpm (by simp [hcontra])
          rw [ihC pid hmem, applyOrderItem_findProduct_ne ty oid item product st pid hne]


/-! ## Congruence and frame lemmas at the executor level -/

theorem findApproval_congr (st st2 : DBState) (h : st.approvals = st2.approvals) (aid : Nat) :
    findApproval st aid = findApproval st2 aid := by
  unfold findApproval
  rw [h]

theorem findOrder_congr (st st2 : DBState) (h : st.orders = st2.orders) (oid : Nat) :
    findOrder st oid = findOrder st2 oid := by
  unfold findOrder
  rw [h]

theorem findProduct_congr (st st2 : DBState) (h : st.products = st2.products) (pid : Nat) :
    findProduct st pid = findProduct st2 pid := by
  unfold findProduct
  rw [h]

theorem foldl_add_map (f : OrderItem → Rat) :
    ∀ (l : List OrderItem) (a : Rat),
      l.foldl (fun acc it => acc + f it) a = a + (l.map f).sum := by
  intro l
  induction l with
  | nil => intro a; simp
  | cons x xs ih =>
    intro a
    simp [ih, add_assoc]

theorem buildOrderInvoice_approvals (hashtext : String → Int) (today : String) (fid : Nat)
    (a : ApprovalRequest) (uid : Nat) (order : Order) (items : List OrderItem) (st1 : DBState) :
    (buildOrderInvoice hashtext today fid a uid order items st1).approvals = st1.approvals := rfl

theorem buildOrderInvoice_orderItems (hashtext : String → Int) (today : String) (fid : Nat)
    (a : ApprovalRequest) (uid : Nat) (order : Order) (items : List OrderItem) (st1 : DBState) :
    (buildOrderInvoice hashtext today fid a uid order items st1).orderItems = st1.orderItems := rfl

theorem buildOrderInvoice_taxRules (hashtext : String → Int) (today : String) (fid : Nat)
    (a : ApprovalRequest) (uid : Nat) (order : Order) (items : List OrderItem) (st1 : DBState) :
    (buildOrderInvoice hashtext today fid a uid order items st1).taxRules = st1.taxRules := rfl

theorem buildOrderInvoice_expenses (hashtext : String → Int) (today : String) (fid : Nat)
    (a : ApprovalRequest) (uid : Nat) (order : Order) (items : List OrderItem) (st1 : DBState) :
    (buildOrderInvoice hashtext today fid a uid order items st1).expenses = st1.expenses := rfl

theorem buildOrderInvoice_products (hashtext : String → Int) (today : String) (fid : Nat)
    (a : ApprovalRequest) (uid : Nat) (order : Order) (items : List OrderItem) (st1 : DBState) :
    (buildOrderInvoice hashtext today fid a uid order items st1).products = st1.products := rfl

theorem buildOrderInvoice_invTxs (hashtext : String → Int) (today : String) (fid : Nat)
    (a : ApprovalRequest) (uid : Nat) (order : Order) (items : List OrderItem) (st1 : DBState) :
    (buildOrderInvoice hashtext today fid a uid order items st1).invTxs = st1.invTxs := rfl

theorem buildOrderInvoice_orders (hashtext : String → Int) (today : String) (fid : Nat)
    (a : ApprovalRequest) (uid : Nat) (order : Order) (items : List OrderItem) (st1 : DBState) :
    (buildOrderInvoice hashtext today fid a uid order items st1).orders =
      (updateOrderStatus st1 order.id OrderStatusCompleted).orders := rfl

/-- A successful executor run never touches the approvals, order items, tax
rules or expenses tables. -/
theorem executeApproval_frame (hashtext : String → Int) (today : String)
    (fid : Nat) (approval : ApprovalRequest) (uid : Nat) (st st' : DBState)
    (h : executeApproval hashtext today fid approval uid st = Except.ok st') :
    st'.approvals = st.approvals ∧ st'.orderItems = st.orderItems ∧
    st'.taxRules = st.taxRules ∧ st'.expenses = st.expenses := by
  unfold executeApproval at h
  split_ifs at h
  · -- CREATE_ORDER
    unfold executeOrderApproval at h
    split at h
    · simp at h
    · rename_i order horder
      simp only [] at h
      split at h
      · simp at h
      · rename_i stMid hproc
        obtain ⟨f1, f2, f3, f4, f5, f6, f7⟩ := processOrderItems_frame _ _ _ _ _ hproc
        cases h
        exact ⟨by rw [buildOrderInvoice_approvals]; exact f2,
               by rw [buildOrderInvoice_orderItems]; exact f7,
               by rw [buildOrderInvoice_taxRules]; exact f5,
               by rw [buildOrderInvoice_expenses]; exact f6⟩
  · -- CREATE_EXPENSE
    unfold executeExpenseApproval at h
    split at h
    · simp at h
    · cases h
      exact ⟨rfl, rfl, rfl, rfl⟩
  · -- CREATE_PRODUCT
    cases h
    exact ⟨rfl, rfl, rfl, rfl⟩

/-- A successful executor run keeps every stock non-negative, provided all
stocks were non-negative and every order item's quantity is positive. -/
theorem executeApproval_nonneg (hashtext : String → Int) (today : String)
    (fid : Nat) (approval : ApprovalRequest) (uid : Nat) (st st' : DBState)
    (hst : ∀ p ∈ st.products, 0 ≤ p.currentStock)
    (hq : ∀ it ∈ st.orderItems, 0 < it.quantity)
    (h : executeApproval hashtext today fid approval uid st = Except.ok st') :
    ∀ p ∈ st'.products, 0 ≤ p.currentStock := by
  unfold executeApproval at h
  split_ifs at h
  · unfold executeOrderApproval at h
    split at h
    · simp at h
    · rename_i order horder
      simp only [] at h
      split at h
      · simp at h
      · rename_i stMid hproc
        have hmid := processOrderItems_nonneg _ _ _ _ _ hst
          (fun it hit => hq it (List.mem_of_mem_filter hit)) hproc
        cases h
        intro p hp
        rw [buildOrderInvoice_products] at hp
        exact hmid p hp
  · unfold executeExpenseApproval at h
    split at h
    · simp at h
    · cases h
      exact hst
  · cases h
    exact hst

/-! ## Service-level decomposition lemmas -/

theorem approveRequest_of_error (hashtext : String → Int) (today : String)
    (now fid aid uid : Nat) (st : DBState) (e : ApprovalError)
    (h : approveTxBody hashtext today now fid aid uid st = Except.error e) :
    approveRequest hashtext today now fid aid uid st = (Except.error e, st) := by
  unfold approveRequest
  rw [h]

theorem approveRequest_snd_of_ok (hashtext : String → Int) (today : String)
    (now fid aid uid : Nat) (st st1 : DBState)
    (h : approveTxBody hashtext today now fid aid uid st = Except.ok st1) :
    (approveRequest hashtext today now fid aid uid st).2 = st1 := by
  unfold approveRequest
  rw [h]
  cases hre : findApproval st1 aid <;> simp [hre]

theorem approveRequest_ok (hashtext : String → Int) (today : String)
    (now fid aid uid : Nat) (st : DBState) (resp : ApprovalRequestResponse)
    (st' : DBState)
    (h : approveRequest hashtext today now fid aid uid st = (Except.ok resp, st')) :
    approveTxBody hashtext today now fid aid uid st = Except.ok st' := by
  unfold approveRequest at h
  split at h
  · simp at h
  · rename_i st1 hbody
    split at h
    · simp at h
    · rename_i a' hre
      simp only [Prod.mk.injEq] at h
      rw [hbody, h.2]

theorem rejectRequest_of_error (now aid uid : Nat) (reason : String) (st : DBState)
    (e : ApprovalError)
    (h : rejectTxBody now aid uid reason st = Except.error e) :
    rejectRequest now aid uid reason st = (Except.error e, st) := by
  unfold rejectRequest
  rw [h]

theorem rejectRequest_snd_of_ok (now aid uid : Nat) (reason : String) (st st1 : DBState)
    (h : rejectTxBody now aid uid reason st = Except.ok st1) :
    (rejectRequest now aid uid reason st).2 = st1 := by
  unfold rejectRequest
  rw [h]
  cases hre : findApproval st1 aid <;> simp [hre]

theorem rejectRequest_ok (now aid uid : Nat) (reason : String) (st : DBState)
    (resp : ApprovalRequestResponse) (st' : DBState)
    (h : rejectRequest now aid uid reason st = (Except.ok resp, st')) :
    rejectTxBody now aid uid reason st = Except.ok st' ∧
    ∃ a', findApproval st' aid = some a' ∧ resp = toApprovalResponse a' := by
  unfold rejectRequest at h
  split at h
  · simp at h
  · rename_i st1 hbody
    split at h
    · simp at h
    · rename_i a' hre
      simp only [Prod.mk.injEq, Except.ok.injEq] at h
      refine ⟨by rw [hbody, h.2], a', h.2 ▸ hre, h.1.symm⟩

/-- Decomposition of a successful ApproveRequest transaction body. -/
theorem approveTxBody_ok (hashtext : String → Int) (today : String)
    (now fid aid uid : Nat) (st st1 : DBState)
    (h : approveTxBody hashtext today now fid aid uid st = Except.ok st1) :
    ∃ a, findApproval st aid = some a ∧ a.status = ApprovalPending ∧
      ∃ st2, executeApproval hashtext today fid
          { a with
            status := ApprovalApproved
            approvedBy := some uid
            approvedAt := some now } uid
          (updateApprovalRow st
            { a with
              status := ApprovalApproved
              approvedBy := some uid
              approvedAt := some now }) = Except.ok st2 ∧
        st1 = { st2 with audits := st2.audits ++
          [{ userID := some uid, action := ActionApproveRequest,
             entityID := a.id, entityName := a.requestType }] } := by
  unfold approveTxBody at h
  split at h
  · simp at h
  · rename_i a hfind
    split_ifs at h with hpend
    unfold approveAfterCheck at h
    simp only [] at h
    split at h
    · simp at h
    · rename_i st2 hexec
      refine ⟨a, hfind, hpend, st2, hexec, ?_⟩
      cases h
      rfl

/-- Decomposition of a successful RejectRequest transaction body. -/
theorem rejectTxBody_ok (now aid uid : Nat) (reason : String) (st st1 : DBState)
    (h : rejectTxBody now aid uid reason st = Except.ok st1) :
    ∃ a, findApproval st aid = some a ∧ a.status = ApprovalPending ∧
      st1 =
        (let rejected := { a with
           status := ApprovalRejected
           approvedBy := some uid
           approvedAt := some now
           rejectionReason := reason }
         let stA := updateApprovalRow st rejected
         let stB := if a.requestType = ApprovalReqTypeCreateOrder then
             updateOrderStatus stA a.referenceID OrderStatusRejected else stA
         { stB with audits := stB.audits ++
           [{ userID := some uid, action := ActionRejectRequest,
              entityID := a.id, entityName := a.requestType }] }) := by
  unfold rejectTxBody at h
  split at h
  · simp at h
  · rename_i a hfind
    split_ifs at h with hpend hco
    · refine ⟨a, hfind, hpend, ?_⟩
      cases h
      simp [hco]
    · refine ⟨a, hfind, hpend, ?_⟩
      cases h
      simp [hco]

/-- The committed state of a successful RejectRequest only rewrites the
approval row, possibly the order's status, and the audit trail. -/
theorem rejectTxBody_frame (now aid uid : Nat) (reason : String) (st st1 : DBState)
    (h : rejectTxBody now aid uid reason st = Except.ok st1) :
    st1.products = st.products ∧ st1.invTxs = st.invTxs ∧
    st1.invoices = st.invoices ∧ st1.orderItems = st.orderItems ∧
    st1.taxRules = st.taxRules ∧ st1.expenses = st.expenses := by
  obtain ⟨a, hfind, hpend, hst1⟩ := rejectTxBody_ok _ _ _ _ _ _ h
  rw [hst1]
  by_cases hco : a.requestType = ApprovalReqTypeCreateOrder <;>
    simp [hco, updateOrderStatus, updateApprovalRow]

/-- After a successful approve transaction body, the stored row at the
approved id is the PENDING row with status APPROVED, approver and
timestamp set. -/
theorem approveTxBody_stored_row (hashtext : String → Int) (today : String)
    (now fid aid uid : Nat) (st st1 : DBState)
    (h : approveTxBody hashtext today now fid aid uid st = Except.ok st1) :
    ∃ a, findApproval st aid = some a ∧ a.status = ApprovalPending ∧
      findApproval st1 aid =
        some { a with status := ApprovalApproved, approvedBy := some uid, approvedAt := some now } := by
  obtain ⟨a, hfind, hpend, st2, hexec, hst1⟩ :=
    approveTxBody_ok hashtext today now fid aid uid st st1 h
  obtain ⟨fA, _, _, _⟩ := executeApproval_frame _ _ _ _ _ _ _ hexec
  have haid : a.id = aid := findApproval_id st aid a hfind
  have happ : st1.approvals = (updateApprovalRow st
      { a with status := ApprovalApproved, approvedBy := some uid, approvedAt := some now }).approvals := by
    rw [hst1]
    exact fA
  refine ⟨a, hfind, hpend, ?_⟩
  rw [findApproval_congr st1 _ happ aid]
  have hfind2 : findApproval st
      ({ a with status := ApprovalApproved, approvedBy := some uid, approvedAt := some now } : ApprovalRequest).id = some a := by
    show findApproval st a.id = some a
    rw [haid]
    exact hfind
  have hres := findApproval_updateApprovalRow_self st _ a hfind2
  rw [← haid]
  exact hres

/-- After a successful reject transaction body, the stored row at the
rejected id is the PENDING row with status REJECTED, approver, timestamp and
reason set. -/
theorem rejectTxBody_stored_row (now aid uid : Nat) (reason : String) (st st1 : DBState)
    (h : rejectTxBody now aid uid reason st = Except.ok st1) :
    ∃ a, findApproval st aid = some a ∧ a.status = ApprovalPending ∧
      findApproval st1 aid =
        some { a with status := ApprovalRejected, approvedBy := some uid, approvedAt := some now, rejectionReason := reason } := by
  obtain ⟨a, hfind, hpend, hst1⟩ := rejectTxBody_ok now aid uid reason st st1 h
  have haid : a.id = aid := findApproval_id st aid a hfind
  have happ : st1.approvals = (updateApprovalRow st
      { a with status := ApprovalRejected, approvedBy := some uid, approvedAt := some now, rejectionReason := reason }).approvals := by
    rw [hst1]
    by_cases hco : a.requestType = ApprovalReqTypeCreateOrder <;>
      simp [hco, updateOrderStatus]
  refine ⟨a, hfind, hpend, ?_⟩
  rw [findApproval_congr st1 _ happ aid]
  have hfind2 : findApproval st
      ({ a with status := ApprovalRejected, approvedBy := some uid, approvedAt := some now, rejectionReason := reason } : ApprovalRequest).id = some a := by
    show findApproval st a.id = some a
    rw [haid]
    exact hfind
  have hres := findApproval_updateApprovalRow_self st _ a hfind2
  rw [← haid]
  exact hres

/-- Characterization of a successful CreateOrder item loop: no table except
order items changes, and one item row is appended per request item. -/
theorem insertOrderItems_ok (oid : Nat) :
    ∀ (items : List OrderItemRequest) (st st' : DBState) (names : List String),
      insertOrderItems oid items st = Except.ok (st', names) →
      st'.products = st.products ∧ st'.orders = st.orders ∧
      st'.approvals = st.approvals ∧ st'.invTxs = st.invTxs ∧
      st'.invoices = st.invoices ∧ st'.audits = st.audits ∧
      st'.taxRules = st.taxRules ∧ st'.expenses = st.expenses ∧
      st'.orderItems = st.orderItems ++ items.map (fun r =>
        { orderID := oid, productID := r.productID, quantity := r.quantity,
          unitPrice := r.unitPrice }) := by
  intro items
  induction items with
  | nil =>
    intro st st' names h
    simp only [insertOrderItems] at h
    cases h
    simp
  | cons itemReq rest ih =>
    intro st st' names h
    simp only [insertOrderItems] at h
    split at h
    · simp at h
    · rename_i product hfind
      split at h
      · simp at h
      · rename_i st2 names0 hrec
        simp only [Except.ok.injEq, Prod.mk.injEq] at h
        obtain ⟨h1, _⟩ := h
        subst h1
        obtain ⟨g1, g2, g3, g4, g5, g6, g7, g8, g9⟩ := ih _ _ _ hrec
        refine ⟨g1, g2, g3, g4, g5, g6, g7, g8, ?_⟩
        rw [g9]
        simp

/-- A successful executor run of a non-EXPORT request never decreases any
product's stock (EXPORT is excluded via the referenced order's type). -/
theorem executeApproval_mono (hashtext : String → Int) (today : String)
    (fid : Nat) (approval : ApprovalRequest) (uid : Nat) (st st' : DBState)
    (hq : ∀ it ∈ st.orderItems, 0 ≤ it.quantity)
    (himp : ∀ order, findOrder st approval.referenceID = some order →
      order.type ≠ OrderTypeExport)
    (h : executeApproval hashtext today fid approval uid st = Except.ok st') :
    ∀ pid p, findProduct st pid = some p →
      ∃ q, findProduct st' pid = some q ∧ p.currentStock ≤ q.currentStock := by
  unfold executeApproval at h
  split_ifs at h
  · unfold executeOrderApproval at h
    split at h
    · simp at h
    · rename_i order horder
      simp only [] at h
      split at h
      · simp at h
      · rename_i stMid hproc
        intro pid p hp
        obtain ⟨q, hfq, hle⟩ := processOrderItems_mono order.type order.id
          (himp order horder) _ _ _
          (fun it hit => hq it (List.mem_of_mem_filter hit)) hproc pid p hp
        cases h
        refine ⟨q, ?_, hle⟩
        rw [findProduct_congr _ stMid (buildOrderInvoice_products _ _ _ _ _ _ _ _) pid]
        exact hfq
  · unfold executeExpenseApproval at h
    split at h
    · simp at h
    · cases h
      intro pid p hp
      exact ⟨p, hp, le_refl _⟩
  · cases h
    intro pid p hp
    exact ⟨p, hp, le_refl _⟩

/-- Characterization of a successful CreateOrder transaction body. -/
theorem createOrderTxBody_spec (foid faid : Nat) (userID : Option Nat)
    (req : CreateOrderRequest) (st st1 : DBState)
    (h : createOrderTxBody foid faid userID req st = Except.ok st1) :
    st1.products = st.products ∧ st1.invTxs = st.invTxs ∧
    st1.invoices = st.invoices ∧ st1.taxRules = st.taxRules ∧
    st1.expenses = st.expenses ∧
    st1.orders = st.orders ++
      [{ id := foid, orderCode := req.orderCode, type := req.type, status := OrderStatusPendingApproval, note := req.note }] ∧
    st1.orderItems = st.orderItems ++ req.items.map (fun r =>
      { orderID := foid, productID := r.productID, quantity := r.quantity, unitPrice := r.unitPrice }) ∧
    st1.approvals = st.approvals ++
      [{ id := faid, requestType := ApprovalReqTypeCreateOrder, referenceID := foid, requestData := { taxRuleID := req.taxRuleID, sideFees := req.sideFees }, status := ApprovalPending, requestedBy := userID, approvedBy := none, approvedAt := none, rejectionReason := "" }] ∧
    (∃ names, st1.audits = st.audits ++
      [{ userID := userID, action := if req.type = OrderTypeExport then ActionCreateOrderOut else ActionCreateOrderIn, entityID := foid, entityName := String.intercalate ", " names },
       { userID := userID, action := ActionCreateApprovalRequest, entityID := faid, entityName := ApprovalReqTypeCreateOrder }]) := by
  unfold createOrderTxBody at h
  split_ifs at h with hdup hexp
  · simp only [] at h
    split at h
    · simp at h
    · rename_i st2 names hrec
      simp only [Except.ok.injEq] at h
      obtain ⟨g1, g2, g3, g4, g5, g6, g7, g8, g9⟩ :=
        insertOrderItems_ok foid req.items _ st2 names hrec
      subst h
      refine ⟨g1, g4, g5, g7, g8, g2, g9, ?_, names, ?_⟩
      · show st2.approvals ++ _ = _
        rw [g3]
      · show (st2.audits ++ _) ++ _ = _
        rw [g6]
        simp [hexp]
  · simp only [] at h
    split at h
    · simp at h
    · rename_i st2 names hrec
      simp only [Except.ok.injEq] at h
      obtain ⟨g1, g2, g3, g4, g5, g6, g7, g8, g9⟩ :=
        insertOrderItems_ok foid req.items _ st2 names hrec
      subst h
      refine ⟨g1, g4, g5, g7, g8, g2, g9, ?_, names, ?_⟩
      · show st2.approvals ++ _ = _
        rw [g3]
      · show (st2.audits ++ _) ++ _ = _
        rw [g6]
        simp [hexp]

/-! ## Projection bridges (all definitional) -/

theorem updateApprovalRow_invoices (st : DBState) (a : ApprovalRequest) :
    (updateApprovalRow st a).invoices = st.invoices := rfl

theorem itemsOfOrder_updateApprovalRow (st : DBState) (a : ApprovalRequest) (oid : Nat) :
    itemsOfOrder (updateApprovalRow st a) oid = itemsOfOrder st oid := rfl

theorem setAudits_invoices (st : DBState) (al : List AuditLog) :
    ({ st with audits := al } : DBState).invoices = st.invoices := rfl

theorem setAudits_orders (st : DBState) (al : List AuditLog) :
    ({ st with audits := al } : DBState).orders = st.orders := rfl

theorem setAudits_products (st : DBState) (al : List AuditLog) :
    ({ st with audits := al } : DBState).products = st.products := rfl

theorem setAudits_invTxs (st : DBState) (al : List AuditLog) :
    ({ st with audits := al } : DBState).invTxs = st.invTxs := rfl

theorem buildOrderInvoice_invoices_eq (hashtext : String → Int) (today : String)
    (fid : Nat) (a : ApprovalRequest) (uid : Nat) (order : Order)
    (items : List OrderItem) (st1 : DBState) :
    (buildOrderInvoice hashtext today fid a uid order items st1).invoices =
      st1.invoices ++ [orderInvoiceRecord hashtext today fid a uid order items
        (updateOrderStatus st1 order.id OrderStatusCompleted)] := rfl

theorem orderInvoiceRecord_subtotal (hashtext : String → Int) (today : String)
    (fid : Nat) (a : ApprovalRequest) (uid : Nat) (order : Order)
    (items : List OrderItem) (st2 : DBState) :
    (orderInvoiceRecord hashtext today fid a uid order items st2).subtotal =
      items.foldl (fun acc item => acc + item.unitPrice * (item.quantity : Rat)) 0 := rfl

theorem orderInvoiceRecord_total (hashtext : String → Int) (today : String)
    (fid : Nat) (a : ApprovalRequest) (uid : Nat) (order : Order)
    (items : List OrderItem) (st2 : DBState) :
    (orderInvoiceRecord hashtext today fid a uid order items st2).totalAmount =
      (orderInvoiceRecord hashtext today fid a uid order items st2).subtotal +
      (orderInvoiceRecord hashtext today fid a uid order items st2).taxAmount +
      (orderInvoiceRecord hashtext today fid a uid order items st2).sideFees := rfl

theorem orderInvoiceRecord_taxAmount (hashtext : String → Int) (today : String)
    (fid : Nat) (a : ApprovalRequest) (uid : Nat) (order : Order)
    (items : List OrderItem) (st2 : DBState) :
    (orderInvoiceRecord hashtext today fid a uid order items st2).taxAmount =
      (match a.requestData.taxRuleID with
       | none => 0
       | some tid =>
         match findTaxRule st2 tid with
         | none => 0
         | some rule =>
           (orderInvoiceRecord hashtext today fid a uid order items st2).subtotal * rule.rate) := by
  cases htid : a.requestData.taxRuleID with
  | none => simp [orderInvoiceRecord, htid]
  | some tid =>
    cases hrule : findTaxRule st2 tid with
    | none => simp [orderInvoiceRecord, htid, hrule]
    | some rule => simp [orderInvoiceRecord, htid, hrule]

/-- Full decomposition of a successful approval of a CREATE_ORDER request:
the stock loop ran on the state with the approval row already saved, the
committed state completes the order, keeps the loop's products and ledger,
and appends exactly the invoice row built by `orderInvoiceRecord`. -/
theorem approveOrder_ok_full (hashtext : String → Int) (today : String)
    (now fid aid uid : Nat) (st : DBState) (approval : ApprovalRequest)
    (order : Order) (st1 : DBState)
    (hfind : findApproval st aid = some approval)
    (htype : approval.requestType = ApprovalReqTypeCreateOrder)
    (horder : findOrder st approval.referenceID = some order)
    (htx : approveTxBody hashtext today now fid aid uid st = Except.ok st1) :
    ∃ stMid,
      processOrderItems order.type order.id (itemsOfOrder st order.id)
        (updateApprovalRow st { approval with status := ApprovalApproved, approvedBy := some uid, approvedAt := some now }) = Except.ok stMid ∧
      st1.orders = (updateOrderStatus stMid order.id OrderStatusCompleted).orders ∧
      st1.products = stMid.products ∧
      st1.invTxs = stMid.invTxs ∧
      stMid.orders = st.orders ∧ stMid.invoices = st.invoices ∧
      stMid.taxRules = st.taxRules ∧
      st1.invoices = st.invoices ++
        [orderInvoiceRecord hashtext today fid
          { approval with status := ApprovalApproved, approvedBy := some uid, approvedAt := some now }
          uid order (itemsOfOrder st order.id)
          (updateOrderStatus stMid order.id OrderStatusCompleted)] := by
  obtain ⟨a0, hfind0, hpend0, st2, hexec, hst1⟩ :=
    approveTxBody_ok hashtext today now fid aid uid st st1 htx
  have ha0 : a0 = approval := by
    rw [hfind] at hfind0
    exact (Option.some_inj.mp hfind0).symm
  subst ha0
  have htypeX : ({ a0 with status := ApprovalApproved, approvedBy := some uid, approvedAt := some now } : ApprovalRequest).requestType = ApprovalReqTypeCreateOrder := htype
  unfold executeApproval at hexec
  rw [if_pos htypeX] at hexec
  unfold executeOrderApproval at hexec
  split at hexec
  · simp at hexec
  · rename_i order2 horder2
    have horder2e : order2 = order := by
      have hX : findOrder st a0.referenceID = some order2 := horder2
      rw [horder] at hX
      exact (Option.some_inj.mp hX).symm
    subst horder2e
    simp only [] at hexec
    split at hexec
    · simp at hexec
    · rename_i stMid hproc
      cases hexec
      subst hst1
      obtain ⟨f1, f2, f3, f4, f5, f6, f7⟩ := processOrderItems_frame _ _ _ _ _ hproc
      rw [itemsOfOrder_updateApprovalRow] at hproc
      refine ⟨stMid, hproc, rfl, rfl, rfl, f1, f3, f5, ?_⟩
      rw [setAudits_invoices, buildOrderInvoice_invoices_eq, itemsOfOrder_updateApprovalRow, f3]
      rfl

/-! ## Theorems -/

/-- C2: if any step of the approval's transaction body fails — in particular
the insufficient-stock failure raised when an EXPORT line item's quantity
exceeds the product's current stock — then ApproveRequest returns that error
and the entire unit of work is rolled back: the committed state is exactly
the pre-call state, so the ApprovalRequest row (still PENDING), the order
rows (still PENDING_APPROVAL), every product's stock (including adjustments
already applied for earlier items of the same order), and the invoice,
inventory-transaction and audit tables are all unchanged. -/
theorem C2_executor_failure_rolls_back (hashtext : String → Int) (today : String)
    (now fid aid uid : Nat) (st : DBState) (e : ApprovalError)
    (herr : approveTxBody hashtext today now fid aid uid st = Except.error e) :
    approveRequest hashtext today now fid aid uid st = (Except.error e, st) ∧
    (approveRequest hashtext today now fid aid uid st).2.approvals = st.approvals ∧
    (approveRequest hashtext today now fid aid uid st).2.orders = st.orders ∧
    (approveRequest hashtext today now fid aid uid st).2.products = st.products ∧
    (approveRequest hashtext today now fid aid uid st).2.invoices = st.invoices ∧
    (approveRequest hashtext today now fid aid uid st).2.invTxs = st.invTxs ∧
    (approveRequest hashtext today now fid aid uid st).2.audits = st.audits := by
  have h1 := approveRequest_of_error hashtext today now fid aid uid st e herr
  exact ⟨h1, by rw [h1], by rw [h1], by rw [h1], by rw [h1], by rw [h1], by rw [h1]⟩

def c2Approval : ApprovalRequest :=
  { id := 2
    requestType := "CREATE_ORDER"
    referenceID := 11
    requestData := { taxRuleID := none, sideFees := none }
    status := "PENDING"
    requestedBy := none
    approvedBy := none
    approvedAt := none
    rejectionReason := "" }

def c2Order : Order :=
  { id := 11, orderCode := "ORD-2", type := "EXPORT", status := "PENDING_APPROVAL", note := "" }

/-- Two-line EXPORT order: item 1 (product 21, quantity 2) is adjustable,
item 2 (product 22, quantity 99 against stock 5) is not. -/
def c2State : DBState :=
  { approvals := [c2Approval]
    orders := [c2Order]
    orderItems := [{ orderID := 11, productID := 21, quantity := 2, unitPrice := 3 },
                   { orderID := 11, productID := 22, quantity := 99, unitPrice := 4 }]
    products := [{ id := 21, sku := "S1", name := "Alpha", currentStock := 10, price := 3 },
                 { id := 22, sku := "S2", name := "Beta", currentStock := 5, price := 4 }]
    invTxs := []
    invoices := []
    taxRules := []
    expenses := []
    audits := [] }

theorem C2_executor_failure_rolls_back_witness :
    approveTxBody (fun _ => 0) "20250101" 100 7 2 3 c2State =
      Except.error (ApprovalError.insufficientStock "Beta" 5 99) ∧
    approveRequest (fun _ => 0) "20250101" 100 7 2 3 c2State =
      (Except.error (ApprovalError.insufficientStock "Beta" 5 99), c2State) := by
  refine ⟨rfl, ?_⟩
  exact (C2_executor_failure_rolls_back (fun _ => 0) "20250101" 100 7 2 3 c2State
    (ApprovalError.insufficientStock "Beta" 5 99) rfl).1

/-- C3: the approval-request status only ever transitions PENDING to APPROVED
(via Approve) or PENDING to REJECTED (via Reject) — any row is either left
unchanged or moved out of PENDING by the respective call; invoking Approve or
Reject on a request whose status is not PENDING fails with an
already-resolved error and modifies nothing; and a successful Reject records
the rejection reason, flips a CREATE_ORDER request's order to REJECTED, and
never mutates any product stock. -/
theorem C3_state_machine (hashtext : String → Int) (today : String)
    (now fid aid uid : Nat) (reason : String) (st : DBState) :
    (∀ a, findApproval st aid = some a → a.status ≠ ApprovalPending →
      approveRequest hashtext today now fid aid uid st =
        (Except.error (ApprovalError.alreadyResolved a.status), st)) ∧
    (∀ a, findApproval st aid = some a → a.status ≠ ApprovalPending →
      rejectRequest now aid uid reason st =
        (Except.error (ApprovalError.alreadyResolved a.status), st)) ∧
    (∀ aid2,
      findApproval (approveRequest hashtext today now fid aid uid st).2 aid2 =
        findApproval st aid2 ∨
      ∃ a, findApproval st aid2 = some a ∧ a.status = ApprovalPending ∧
        findApproval (approveRequest hashtext today now fid aid uid st).2 aid2 =
          some { a with status := ApprovalApproved, approvedBy := some uid, approvedAt := some now }) ∧
    (∀ aid2,
      findApproval (rejectRequest now aid uid reason st).2 aid2 =
        findApproval st aid2 ∨
      ∃ a, findApproval st aid2 = some a ∧ a.status = ApprovalPending ∧
        findApproval (rejectRequest now aid uid reason st).2 aid2 =
          some { a with status := ApprovalRejected, approvedBy := some uid, approvedAt := some now, rejectionReason := reason }) ∧
    (∀ resp st', rejectRequest now aid uid reason st = (Except.ok resp, st') →
      st'.products = st.products ∧
      ∃ a, findApproval st aid = some a ∧ a.status = ApprovalPending ∧
        findApproval st' aid =
          some { a with status := ApprovalRejected, approvedBy := some uid, approvedAt := some now, rejectionReason := reason } ∧
        (a.requestType = ApprovalReqTypeCreateOrder →
          ∀ o, findOrder st a.referenceID = some o →
            findOrder st' a.referenceID = some { o with status := OrderStatusRejected })) := by
  refine ⟨?_, ?_, ?_, ?_, ?_⟩
  · intro a hfind hstat
    have htx : approveTxBody hashtext today now fid aid uid st =
        Except.error (ApprovalError.alreadyResolved a.status) := by
      unfold approveTxBody
      rw [hfind]
      simp [hstat]
    exact approveRequest_of_error hashtext today now fid aid uid st _ htx
  · intro a hfind hstat
    have htx : rejectTxBody now aid uid reason st =
        Except.error (ApprovalError.alreadyResolved a.status) := by
      unfold rejectTxBody
      rw [hfind]
      simp [hstat]
    exact rejectRequest_of_error now aid uid reason st _ htx
  · intro aid2
    cases htx : approveTxBody hashtext today now fid aid uid st with
    | error e =>
      left
      rw [approveRequest_of_error hashtext today now fid aid uid st e htx]
    | ok st1 =>
      rw [approveRequest_snd_of_ok hashtext today now fid aid uid st st1 htx]
      obtain ⟨a, hfind, hpend, st2, hexec, hst1⟩ :=
        approveTxBody_ok hashtext today now fid aid uid st st1 htx
      obtain ⟨fA, _, _, _⟩ := executeApproval_frame _ _ _ _ _ _ _ hexec
      have haid : a.id = aid := findApproval_id st aid a hfind
      have happ : st1.approvals = (updateApprovalRow st
          { a with status := ApprovalApproved, approvedBy := some uid, approvedAt := some now }).approvals := by
        rw [hst1]
        exact fA
      have hcong := findApproval_congr st1 _ happ aid2
      by_cases heq : aid2 = aid
      · subst heq
        right
        obtain ⟨a0, hfind0, hpend0, hstored⟩ :=
          approveTxBody_stored_row hashtext today now fid aid2 uid st st1 htx
        exact ⟨a0, hfind0, hpend0, hstored⟩
      · left
        rw [hcong]
        have hne2 : aid2 ≠
            ({ a with status := ApprovalApproved, approvedBy := some uid, approvedAt := some now } : ApprovalRequest).id := by
          show aid2 ≠ a.id
          rw [haid]
          exact heq
        exact findApproval_updateApprovalRow_ne st _ aid2 hne2
  · intro aid2
    cases htx : rejectTxBody now aid uid reason st with
    | error e =>
      left
      rw [rejectRequest_of_error now aid uid reason st e htx]
    | ok st1 =>
      rw [rejectRequest_snd_of_ok now aid uid reason st st1 htx]
      obtain ⟨a, hfind, hpend, hst1⟩ := rejectTxBody_ok now aid uid reason st st1 htx
      have haid : a.id = aid := findApproval_id st aid a hfind
      have happ : st1.approvals = (updateApprovalRow st
          { a with status := ApprovalRejected, approvedBy := some uid, approvedAt := some now, rejectionReason := reason }).approvals := by
        rw [hst1]
        by_cases hco : a.requestType = ApprovalReqTypeCreateOrder <;>
          simp [hco, updateOrderStatus]
      have hcong := findApproval_congr st1 _ happ aid2
      by_cases heq : aid2 = aid
      · subst heq
        right
        obtain ⟨a0, hfind0, hpend0, hstored⟩ :=
          rejectTxBody_stored_row now aid2 uid reason st st1 htx
        exact ⟨a0, hfind0, hpend0, hstored⟩
      · left
        rw [hcong]
        have hne2 : aid2 ≠
            ({ a with status := ApprovalRejected, approvedBy := some uid, approvedAt := some now, rejectionReason := reason } : ApprovalRequest).id := by
          show aid2 ≠ a.id
          rw [haid]
          exact heq
        exact findApproval_updateApprovalRow_ne st _ aid2 hne2
  · intro resp st' hok
    obtain ⟨hbody, a', hre, hresp⟩ := rejectRequest_ok now aid uid reason st resp st' hok
    obtain ⟨hprod, _, _, _, _, _⟩ := rejectTxBody_frame now aid uid reason st st' hbody
    obtain ⟨a, hfind, hpend, hstored⟩ := rejectTxBody_stored_row now aid uid reason st st' hbody
    obtain ⟨a1, hfind1, hpend1, hst1⟩ := rejectTxBody_ok now aid uid reason st st' hbody
    have haa1 : a1 = a := by
      rw [hfind] at hfind1
      exact (Option.some_inj.mp hfind1).symm
    subst haa1
    refine ⟨hprod, a1, hfind, hpend, hstored, ?_⟩
    intro hco o horder
    have hords : st'.orders = (updateOrderStatus
        (updateApprovalRow st { a1 with status := ApprovalRejected, approvedBy := some uid, approvedAt := some now, rejectionReason := reason })
        a1.referenceID OrderStatusRejected).orders := by
      rw [hst1]
      simp [hco]
    rw [findOrder_congr st' _ hords a1.referenceID]
    have horder2 : findOrder (updateApprovalRow st
        { a1 with status := ApprovalRejected, approvedBy := some uid, approvedAt := some now, rejectionReason := reason })
        a1.referenceID = some o := horder
    exact findOrder_updateOrderStatus_self _ a1.referenceID OrderStatusRejected o horder2

def c3ResolvedApproval : ApprovalRequest :=
  { id := 5
    requestType := "CREATE_PRODUCT"
    referenceID := 50
    requestData := { taxRuleID := none, sideFees := none }
    status := "APPROVED"
    requestedBy := none
    approvedBy := some 9
    approvedAt := some 10
    rejectionReason := "" }

def c3ResolvedState : DBState :=
  { approvals := [c3ResolvedApproval]
    orders := []
    orderItems := []
    products := []
    invTxs := []
    invoices := []
    taxRules := []
    expenses := []
    audits := [] }

def c3PendingApproval : ApprovalRequest :=
  { id := 6
    requestType := "CREATE_ORDER"
    referenceID := 60
    requestData := { taxRuleID := none, sideFees := none }
    status := "PENDING"
    requestedBy := none
    approvedBy := none
    approvedAt := none
    rejectionReason := "" }

def c3PendingOrder : Order :=
  { id := 60, orderCode := "ORD-3", type := "IMPORT", status := "PENDING_APPROVAL", note := "" }

def c3PendingState : DBState :=
  { approvals := [c3PendingApproval]
    orders := [c3PendingOrder]
    orderItems := []
    products := [{ id := 61, sku := "S61", name := "Gamma", currentStock := 4, price := 2 }]
    invTxs := []
    invoices := []
    taxRules := []
    expenses := []
    audits := [] }

def c3RejectedApproval : ApprovalRequest :=
  { id := 6
    requestType := "CREATE_ORDER"
    referenceID := 60
    requestData := { taxRuleID := none, sideFees := none }
    status := "REJECTED"
    requestedBy := none
    approvedBy := some 9
    approvedAt := some 100
    rejectionReason := "dup" }

def c3RejState : DBState :=
  { approvals := [c3RejectedApproval]
    orders := [{ id := 60, orderCode := "ORD-3", type := "IMPORT", status := "REJECTED", note := "" }]
    orderItems := []
    products := [{ id := 61, sku := "S61", name := "Gamma", currentStock := 4, price := 2 }]
    invTxs := []
    invoices := []
    taxRules := []
    expenses := []
    audits := [{ userID := some 9, action := "REJECT_REQUEST", entityID := 6, entityName := "CREATE_ORDER" }] }

def c3RejResp : ApprovalRequestResponse := toApprovalResponse c3RejectedApproval

theorem C3_state_machine_witness :
    approveRequest (fun _ => 0) "20250101" 100 7 5 9 c3ResolvedState =
      (Except.error (ApprovalError.alreadyResolved "APPROVED"), c3ResolvedState) ∧
    rejectRequest 100 5 9 "nope" c3ResolvedState =
      (Except.error (ApprovalError.alreadyResolved "APPROVED"), c3ResolvedState) ∧
    c3RejState.products = c3PendingState.products ∧
    findApproval c3RejState 6 = some c3RejectedApproval := by
  have h3 := C3_state_machine (fun _ => 0) "20250101" 100 7 5 9 "nope" c3ResolvedState
  have h6 := C3_state_machine (fun _ => 0) "20250101" 100 7 6 9 "dup" c3PendingState
  refine ⟨h3.1 c3ResolvedApproval rfl (by decide),
          h3.2.1 c3ResolvedApproval rfl (by decide), ?_, ?_⟩
  · exact (h6.2.2.2.2 c3RejResp c3RejState rfl).1
  · obtain ⟨hp, a, hf, hpend, hstored, _⟩ := h6.2.2.2.2 c3RejResp c3RejState rfl
    have ha : a = c3PendingApproval := Option.some_inj.mp hf.symm
    subst ha
    exact hstored

/-- C10: a successful RejectRequest stores the rejecting user's id in
approved_by and the rejection time in approved_at — the same fields used for
approvals — and the returned response surfaces those values in its
approved_by / approved_at fields even though the status is REJECTED. -/
theorem C10_reject_sets_approver_fields (now aid uid : Nat) (reason : String)
    (st : DBState) (resp : ApprovalRequestResponse) (st' : DBState)
    (hok : rejectRequest now aid uid reason st = (Except.ok resp, st')) :
    (∃ a', findApproval st' aid = some a' ∧ a'.approvedBy = some uid ∧
      a'.approvedAt = some now ∧ a'.status = ApprovalRejected ∧
      a'.rejectionReason = reason) ∧
    resp.approvedBy = some uid ∧ resp.approvedAt = some now ∧
    resp.status = ApprovalRejected ∧ resp.rejectionReason = reason := by
  obtain ⟨hbody, a', hre, hresp⟩ := rejectRequest_ok now aid uid reason st resp st' hok
  obtain ⟨a, hfind, hpend, hstored⟩ := rejectTxBody_stored_row now aid uid reason st st' hbody
  have ha' : a' = { a with status := ApprovalRejected, approvedBy := some uid, approvedAt := some now, rejectionReason := reason } := by
    rw [hre] at hstored
    exact Option.some_inj.mp hstored
  subst ha'
  refine ⟨⟨_, hre, rfl, rfl, rfl, rfl⟩, ?_⟩
  rw [hresp]
  exact ⟨rfl, rfl, rfl, rfl⟩

theorem C10_reject_sets_approver_fields_witness :
    c3RejResp.approvedBy = some 9 ∧ c3RejResp.approvedAt = some 100 ∧
    c3RejResp.status = ApprovalRejected ∧ c3RejResp.rejectionReason = "dup" :=
  (C10_reject_sets_approver_fields 100 6 9 "dup" c3PendingState c3RejResp c3RejState rfl).2

/-- C4: when every product's current_stock is non-negative and every stored
order item's quantity is positive (the DTO binding `gt=0` guarantees the
latter), the committed state of every operation keeps every current_stock
non-negative — an approved EXPORT line only commits under the
`current_stock >= quantity` guard taken inside the product row lock — and a
successful approval of an IMPORT order never decreases any product's
stock. -/
theorem C4_stock_never_negative (hashtext : String → Int) (today : String)
    (now fid aid uid foid faid : Nat) (reason : String) (userID : Option Nat)
    (req : CreateOrderRequest) (st : DBState)
    (hst : ∀ p ∈ st.products, 0 ≤ p.currentStock)
    (hq : ∀ it ∈ st.orderItems, 0 < it.quantity) :
    (∀ p ∈ (approveRequest hashtext today now fid aid uid st).2.products, 0 ≤ p.currentStock) ∧
    (∀ p ∈ (rejectRequest now aid uid reason st).2.products, 0 ≤ p.currentStock) ∧
    (∀ p ∈ (createOrder foid faid userID req st).2.products, 0 ≤ p.currentStock) ∧
    (∀ a order resp st',
      findApproval st aid = some a →
      findOrder st a.referenceID = some order →
      order.type = OrderTypeImport →
      approveRequest hashtext today now fid aid uid st = (Except.ok resp, st') →
      ∀ pid p, findProduct st pid = some p →
        ∃ q, findProduct st' pid = some q ∧ p.currentStock ≤ q.currentStock) := by
  refine ⟨?_, ?_, ?_, ?_⟩
  · cases htx : approveTxBody hashtext today now fid aid uid st with
    | error e =>
      rw [approveRequest_of_error hashtext today now fid aid uid st e htx]
      exact hst
    | ok st1 =>
      rw [approveRequest_snd_of_ok hashtext today now fid aid uid st st1 htx]
      obtain ⟨a, hfind, hpend, st2, hexec, hst1⟩ :=
        approveTxBody_ok hashtext today now fid aid uid st st1 htx
      have h2 := executeApproval_nonneg _ _ _ _ _
        (updateApprovalRow st { a with status := ApprovalApproved, approvedBy := some uid, approvedAt := some now }) _
        (fun p hp => hst p hp) (fun it hit => hq it hit) hexec
      intro p hp
      rw [hst1] at hp
      exact h2 p hp
  · cases htx : rejectTxBody now aid uid reason st with
    | error e =>
      rw [rejectRequest_of_error now aid uid reason st e htx]
      exact hst
    | ok st1 =>
      rw [rejectRequest_snd_of_ok now aid uid reason st st1 htx]
      obtain ⟨hprod, _, _, _, _, _⟩ := rejectTxBody_frame now aid uid reason st st1 htx
      intro p hp
      rw [hprod] at hp
      exact hst p hp
  · cases htx : createOrderTxBody foid faid userID req st with
    | error e =>
      have hco : createOrder foid faid userID req st = (Except.error e, st) := by
        unfold createOrder
        rw [htx]
      rw [hco]
      exact hst
    | ok st1 =>
      have hco : (createOrder foid faid userID req st).2 = st1 := by
        unfold createOrder
        rw [htx]
      rw [hco]
      obtain ⟨hprod, _⟩ := createOrderTxBody_spec foid faid userID req st st1 htx
      intro p hp
      rw [hprod] at hp
      exact hst p hp
  · intro a order resp st' hfind horder htype hok
    have htx := approveRequest_ok hashtext today now fid aid uid st resp st' hok
    obtain ⟨a0, hfind0, hpend0, st2, hexec, hst1⟩ :=
      approveTxBody_ok hashtext today now fid aid uid st st' htx
    have ha0 : a0 = a := by
      rw [hfind] at hfind0
      exact (Option.some_inj.mp hfind0).symm
    subst ha0
    have hmono := executeApproval_mono _ _ _ _ _
      (updateApprovalRow st { a0 with status := ApprovalApproved, approvedBy := some uid, approvedAt := some now }) _
      (fun it hit => le_of_lt (hq it hit))
      (fun order2 horder2 => by
        have : order2 = order := by
          have h1 : findOrder st a0.referenceID = some order2 := horder2
          rw [horder] at h1
          exact (Option.some_inj.mp h1).symm
        rw [this, htype]
        decide)
      hexec
    intro pid p hp
    obtain ⟨q, hfq, hle⟩ := hmono pid p hp
    refine ⟨q, ?_, hle⟩
    rw [hst1]
    exact hfq

theorem C4_stock_never_negative_witness :
    (0 : Int) ≤ ({ id := 61, sku := "S61", name := "Gamma", currentStock := 4, price := 2 } : Product).currentStock :=
  (C4_stock_never_negative (fun _ => 0) "20250101" 100 7 6 9 1 2 "r" none
    { orderCode := "X", type := "IMPORT", note := "", items := [], taxRuleID := none, sideFees := none }
    c3PendingState (by decide) (by decide)).1
    { id := 61, sku := "S61", name := "Gamma", currentStock := 4, price := 2 } (by decide)

/-- C5: a successful CreateOrder commits the order with status
PENDING_APPROVAL, its item rows, a PENDING ApprovalRequest carrying the
request snapshot, and two audit entries, while performing no stock or
invoice effects: products, inventory transactions, invoices, tax rules and
expenses are untouched. -/
theorem C5_createOrder_no_stock_effects (foid faid : Nat) (userID : Option Nat)
    (req : CreateOrderRequest) (st st' : DBState)
    (hok : createOrder foid faid userID req st = (Except.ok (), st')) :
    st'.products = st.products ∧
    st'.invTxs = st.invTxs ∧
    st'.invoices = st.invoices ∧
    st'.taxRules = st.taxRules ∧
    st'.expenses = st.expenses ∧
    st'.orders = st.orders ++
      [{ id := foid, orderCode := req.orderCode, type := req.type, status := OrderStatusPendingApproval, note := req.note }] ∧
    st'.orderItems = st.orderItems ++ req.items.map (fun r =>
      { orderID := foid, productID := r.productID, quantity := r.quantity, unitPrice := r.unitPrice }) ∧
    st'.approvals = st.approvals ++
      [{ id := faid, requestType := ApprovalReqTypeCreateOrder, referenceID := foid, requestData := { taxRuleID := req.taxRuleID, sideFees := req.sideFees }, status := ApprovalPending, requestedBy := userID, approvedBy := none, approvedAt := none, rejectionReason := "" }] ∧
    (∃ names, st'.audits = st.audits ++
      [{ userID := userID, action := if req.type = OrderTypeExport then ActionCreateOrderOut else ActionCreateOrderIn, entityID := foid, entityName := String.intercalate ", " names },
       { userID := userID, action := ActionCreateApprovalRequest, entityID := faid, entityName := ApprovalReqTypeCreateOrder }]) := by
  have htx : createOrderTxBody foid faid userID req st = Except.ok st' := by
    unfold createOrder at hok
    split at hok
    · simp at hok
    · rename_i st1 hbody
      simp only [Prod.mk.injEq] at hok
      rw [hbody, hok.2]
  exact createOrderTxBody_spec foid faid userID req st st' htx

def c5State : DBState :=
  { approvals := []
    orders := []
    orderItems := []
    products := [{ id := 31, sku := "P31", name := "Delta", currentStock := 2, price := 7 }]
    invTxs := []
    invoices := []
    taxRules := []
    expenses := []
    audits := [] }

def c5Req : CreateOrderRequest :=
  { orderCode := "OC-5"
    type := "EXPORT"
    note := "n"
    items := [{ productID := 31, quantity := 1, unitPrice := 7 }]
    taxRuleID := none
    sideFees := none }

theorem C5_createOrder_no_stock_effects_witness :
    (createOrder 40 41 (some 9) c5Req c5State).2.products = c5State.products ∧
    (createOrder 40 41 (some 9) c5Req c5State).2.invTxs = c5State.invTxs ∧
    (createOrder 40 41 (some 9) c5Req c5State).2.invoices = c5State.invoices := by
  have h := C5_createOrder_no_stock_effects 40 41 (some 9) c5Req c5State
    (createOrder 40 41 (some 9) c5Req c5State).2 (by rfl)
  exact ⟨h.1, h.2.1, h.2.2.1⟩

/-- C6: on a successful Approve of a CREATE_ORDER request over pairwise
distinct line products, the order's status becomes COMPLETED; each item's
product stock changes by exactly +quantity (IMPORT) or -quantity (EXPORT);
one InventoryTransaction row is appended per item whose stock_after equals
the stock value written back; and exactly one invoice is created whose
subtotal is the sum over items of unit price times quantity and whose total
equals subtotal plus tax plus side fees. -/
theorem C6_order_approval_effects (hashtext : String → Int) (today : String)
    (now fid aid uid : Nat) (st : DBState) (approval : ApprovalRequest)
    (order : Order) (resp : ApprovalRequestResponse) (st' : DBState)
    (hfind : findApproval st aid = some approval)
    (htype : approval.requestType = ApprovalReqTypeCreateOrder)
    (horder : findOrder st approval.referenceID = some order)
    (hnodup : ((itemsOfOrder st order.id).map OrderItem.productID).Nodup)
    (hok : approveRequest hashtext today now fid aid uid st = (Except.ok resp, st')) :
    findOrder st' order.id = some { order with status := OrderStatusCompleted } ∧
    (∀ it ∈ itemsOfOrder st order.id, ∃ p, findProduct st it.productID = some p ∧
      findProduct st' it.productID = some { p with currentStock := p.currentStock + it.quantity * (if order.type = OrderTypeExport then -1 else 1) }) ∧
    (∃ trace, st'.invTxs = st.invTxs ++ trace ∧
      List.Forall₂ (fun (it : OrderItem) (t : InventoryTransaction) =>
        ∃ p, findProduct st it.productID = some p ∧
          t = { productID := it.productID, orderID := some order.id,
                transactionType := if order.type = OrderTypeExport then TxTypeOut else TxTypeIn,
                quantityChanged := it.quantity * (if order.type = OrderTypeExport then -1 else 1),
                stockAfter := p.currentStock + it.quantity * (if order.type = OrderTypeExport then -1 else 1) })
        (itemsOfOrder st order.id) trace) ∧
    (∃ inv, st'.invoices = st.invoices ++ [inv] ∧
      inv.subtotal = ((itemsOfOrder st order.id).map (fun it => it.unitPrice * (it.quantity : Rat))).sum ∧
      inv.totalAmount = inv.subtotal + inv.taxAmount + inv.sideFees) := by
  have htx := approveRequest_ok hashtext today now fid aid uid st resp st' hok
  obtain ⟨stMid, hproc, hOrd, hProd, hTx, hMOrd, hMInv, hMTax, hInv⟩ :=
    approveOrder_ok_full hashtext today now fid aid uid st approval order st' hfind htype horder htx
  obtain ⟨tA, ⟨trace, htr, hforall⟩, tC⟩ :=
    processOrderItems_trace order.type order.id _ _ _ hnodup hproc
  refine ⟨?_, ?_, ⟨trace, ?_, ?_⟩, ?_⟩
  · rw [findOrder_congr st' _ hOrd order.id]
    have hoid : order.id = approval.referenceID := findOrder_id st _ order horder
    have hmid : findOrder stMid order.id = some order := by
      rw [findOrder_congr stMid st hMOrd order.id, hoid]
      exact horder
    exact findOrder_updateOrderStatus_self stMid order.id _ order hmid
  · intro it hit
    obtain ⟨p, hp, hp'⟩ := tA it hit
    refine ⟨p, hp, ?_⟩
    rw [findProduct_congr st' stMid hProd it.productID]
    exact hp'
  · rw [hTx, htr]
    rfl
  · exact hforall
  · refine ⟨_, hInv, ?_, ?_⟩
    · rw [orderInvoiceRecord_subtotal]
      have hsum := foldl_add_map (fun it => it.unitPrice * (it.quantity : Rat))
        (itemsOfOrder st order.id) 0
      rw [zero_add] at hsum
      exact hsum
    · exact orderInvoiceRecord_total hashtext today fid _ uid order _ _

set_option allowUnsafeReducibility true in
attribute [semireducible] Rat.add

set_option allowUnsafeReducibility true in
attribute [semireducible] Rat.mul

def c6Approval : ApprovalRequest :=
  { id := 3
    requestType := "CREATE_ORDER"
    referenceID := 12
    requestData := { taxRuleID := none, sideFees := none }
    status := "PENDING"
    requestedBy := none
    approvedBy := none
    approvedAt := none
    rejectionReason := "" }

def c6Order : Order :=
  { id := 12, orderCode := "ORD-6", type := "EXPORT", status := "PENDING_APPROVAL", note := "" }

def c6State : DBState :=
  { approvals := [c6Approval]
    orders := [c6Order]
    orderItems := [{ orderID := 12, productID := 23, quantity := 2, unitPrice := 5 }]
    products := [{ id := 23, sku := "S23", name := "Widget6", currentStock := 10, price := 5 }]
    invTxs := []
    invoices := []
    taxRules := []
    expenses := []
    audits := [] }

def c6ApprovedRow : ApprovalRequest :=
  { id := 3
    requestType := "CREATE_ORDER"
    referenceID := 12
    requestData := { taxRuleID := none, sideFees := none }
    status := "APPROVED"
    requestedBy := none
    approvedBy := some 4
    approvedAt := some 100
    rejectionReason := "" }

def c6Committed : DBState :=
  { approvals := [c6ApprovedRow]
    orders := [{ id := 12, orderCode := "ORD-6", type := "EXPORT", status := "COMPLETED", note := "" }]
    orderItems := [{ orderID := 12, productID := 23, quantity := 2, unitPrice := 5 }]
    products := [{ id := 23, sku := "S23", name := "Widget6", currentStock := 8, price := 5 }]
    invTxs := [{ productID := 23, orderID := some 12, transactionType := "OUT", quantityChanged := -2, stockAfter := 8 }]
    invoices := [{ id := 7, invoiceNo := "INV-20250101-00001", referenceType := "ORDER_EXPORT", referenceID := 12, taxRuleID := none, subtotal := 10, taxAmount := 0, sideFees := 0, totalAmount := 10, approvalStatus := "APPROVED", approvedBy := some 4, approvedAt := some 100, note := "" }]
    taxRules := []
    expenses := []
    audits := [{ userID := some 4, action := "CREATE_INVOICE_FROM_APPROVAL", entityID := 7, entityName := "INV-20250101-00001" },
               { userID := some 4, action := "APPROVE_REQUEST", entityID := 3, entityName := "CREATE_ORDER" }] }

theorem C6_order_approval_effects_witness :
    findOrder c6Committed 12 =
      some { id := 12, orderCode := "ORD-6", type := "EXPORT", status := "COMPLETED", note := "" } := by
  have h := C6_order_approval_effects (fun _ => 0) "20250101" 100 7 3 4 c6State
    c6Approval c6Order (toApprovalResponse c6ApprovedRow) c6Committed
    rfl rfl rfl (by decide) (by rfl)
  exact h.1

/-- C9: for a CREATE_ORDER approval, the committed invoice's tax amount
equals the order subtotal multiplied by the rate stored on the tax rule
identified by the tax_rule_id in the request's JSON snapshot, resolved at
approval time against the current tax-rules table; if the snapshot carries
no parseable tax_rule_id or no such tax-rule row exists, the tax amount is
zero — one consistent policy, under which the approval still succeeds (the
witness evaluates a concrete missing-rule approval to success with zero
tax). -/
theorem C9_tax_resolved_at_approval (hashtext : String → Int) (today : String)
    (now fid aid uid : Nat) (st : DBState) (approval : ApprovalRequest)
    (order : Order) (resp : ApprovalRequestResponse) (st' : DBState)
    (hfind : findApproval st aid = some approval)
    (htype : approval.requestType = ApprovalReqTypeCreateOrder)
    (horder : findOrder st approval.referenceID = some order)
    (hok : approveRequest hashtext today now fid aid uid st = (Except.ok resp, st')) :
    ∃ inv, st'.invoices = st.invoices ++ [inv] ∧
      inv.taxAmount =
        (match approval.requestData.taxRuleID with
         | none => 0
         | some tid =>
           match findTaxRule st tid with
           | none => 0
           | some rule => inv.subtotal * rule.rate) := by
  have htx := approveRequest_ok hashtext today now fid aid uid st resp st' hok
  obtain ⟨stMid, hproc, hOrd, hProd, hTx, hMOrd, hMInv, hMTax, hInv⟩ :=
    approveOrder_ok_full hashtext today now fid aid uid st approval order st' hfind htype horder htx
  refine ⟨_, hInv, ?_⟩
  rw [orderInvoiceRecord_taxAmount]
  have htaxcong : ∀ tid, findTaxRule (updateOrderStatus stMid order.id OrderStatusCompleted) tid = findTaxRule st tid := by
    intro tid
    unfold findTaxRule
    show stMid.taxRules.find? _ = st.taxRules.find? _
    rw [hMTax]
  cases htid : approval.requestData.taxRuleID with
  | none => simp [htid]
  | some tid =>
    cases hrule : findTaxRule st tid with
    | none => simp [htid, htaxcong tid, hrule]
    | some rule => simp [htid, htaxcong tid, hrule]

def c9Approval : ApprovalRequest :=
  { id := 14
    requestType := "CREATE_ORDER"
    referenceID := 15
    requestData := { taxRuleID := some 99, sideFees := none }
    status := "PENDING"
    requestedBy := none
    approvedBy := none
    approvedAt := none
    rejectionReason := "" }

def c9Order : Order :=
  { id := 15, orderCode := "ORD-9", type := "EXPORT", status := "PENDING_APPROVAL", note := "" }

/-- Snapshot references tax rule 99, but no such rule exists in the state. -/
def c9State : DBState :=
  { approvals := [c9Approval]
    orders := [c9Order]
    orderItems := [{ orderID := 15, productID := 25, quantity := 2, unitPrice := 5 }]
    products := [{ id := 25, sku := "S25", name := "Widget9", currentStock := 10, price := 5 }]
    invTxs := []
    invoices := []
    taxRules := []
    expenses := []
    audits := [] }

def c9ApprovedRow : ApprovalRequest :=
  { id := 14
    requestType := "CREATE_ORDER"
    referenceID := 15
    requestData := { taxRuleID := some 99, sideFees := none }
    status := "APPROVED"
    requestedBy := none
    approvedBy := some 4
    approvedAt := some 100
    rejectionReason := "" }

def c9Invoice : Invoice :=
  { id := 7
    invoiceNo := "INV-20250101-00001"
    referenceType := "ORDER_EXPORT"
    referenceID := 15
    taxRuleID := some 99
    subtotal := 10
    taxAmount := 0
    sideFees := 0
    totalAmount := 10
    approvalStatus := "APPROVED"
    approvedBy := some 4
    approvedAt := some 100
    note := "" }

def c9Committed : DBState :=
  { approvals := [c9ApprovedRow]
    orders := [{ id := 15, orderCode := "ORD-9", type := "EXPORT", status := "COMPLETED", note := "" }]
    orderItems := [{ orderID := 15, productID := 25, quantity := 2, unitPrice := 5 }]
    products := [{ id := 25, sku := "S25", name := "Widget9", currentStock := 8, price := 5 }]
    invTxs := [{ productID := 25, orderID := some 15, transactionType := "OUT", quantityChanged := -2, stockAfter := 8 }]
    invoices := [c9Invoice]
    taxRules := []
    expenses := []
    audits := [{ userID := some 4, action := "CREATE_INVOICE_FROM_APPROVAL", entityID := 7, entityName := "INV-20250101-00001" },
               { userID := some 4, action := "APPROVE_REQUEST", entityID := 14, entityName := "CREATE_ORDER" }] }

theorem C9_tax_resolved_at_approval_witness :
    c9Committed.invoices = c9State.invoices ++ [c9Invoice] ∧ c9Invoice.taxAmount = 0 := by
  obtain ⟨inv, hinvs, htax⟩ := C9_tax_resolved_at_approval (fun _ => 0) "20250101" 100 7 14 4
    c9State c9Approval c9Order (toApprovalResponse c9ApprovedRow) c9Committed
    rfl rfl rfl (by rfl)
  have hi : inv = c9Invoice := by
    have h2 : c9State.invoices ++ [inv] = [c9Invoice] := by
      rw [← hinvs]
      rfl
    simpa [c9State] using h2
  subst hi
  refine ⟨hinvs, ?_⟩
  rw [htax]
  rfl

/-- C7: the invoice-number allocator returns the string "INV-" plus the
current date in YYYYMMDD format plus "-" plus (count+1) zero-padded to 5
digits, where count is the number of existing invoices whose invoice_no
starts with that day prefix, and it acquires the transaction-scoped advisory
lock keyed by the hash of the day prefix before issuing the count query. -/
theorem C7_generateInvoiceNo_spec (hashtext : String → Int) (today : String)
    (invoices : List Invoice) :
    (generateInvoiceNo hashtext today invoices).invoiceNo =
      "INV-" ++ today ++ "-" ++
        pad5 (invoices.countP
          (fun inv => inv.invoiceNo.startsWith ("INV-" ++ today ++ "-")) + 1) ∧
    (generateInvoiceNo hashtext today invoices).effects =
      [SqlEffect.advisoryLock (hashtext ("INV-" ++ today ++ "-")),
       SqlEffect.countInvoicesLike ("INV-" ++ today ++ "-")] := by
  constructor
  · simp [generateInvoiceNo, List.countP_eq_length_filter]
  · rfl

/-- C8 counterexample: invoking RunInTx with a context produced by an
enclosing RunInTx (outer transaction handle 1), the inner callback executes
on the freshly begun transaction 2, not on the outer handle. -/
theorem C8_nested_RunInTx_counterexample :
    (runInTxCtx 2 (runInTxCtx 1 { txHandle := none })).txHandle = some 2 ∧
    ¬ (runInTxCtx 2 (runInTxCtx 1 { txHandle := none })).txHandle =
        (runInTxCtx 1 { txHandle := none }).txHandle := by
  decide

/-- C8 amended: RunInTx always begins a new transaction on the root
connection — even when the invoking context already carries a transaction
handle, the inner callback's context carries the freshly begun handle, not
the existing one — while every repository accessor resolving its connection
via GetDB uses the context's transaction handle when one is present and the
root connection otherwise. -/
theorem C8_RunInTx_GetDB_spec (fresh : Nat) (ctx : Ctx) (rootDB : GormConn) :
    (runInTxCtx fresh ctx).txHandle = some fresh ∧
    (∀ i, ctx.txHandle = some i → getDB ctx rootDB = GormConn.txn i) ∧
    (ctx.txHandle = none → getDB ctx rootDB = rootDB) := by
  refine ⟨rfl, fun i hi => ?_, fun hn => ?_⟩
  · simp [getDB, hi]
  · simp [getDB, hn]

theorem C8_RunInTx_GetDB_spec_witness :
    (runInTxCtx 5 { txHandle := some 3 }).txHandle = some 5 ∧
    getDB { txHandle := some 3 } GormConn.root = GormConn.txn 3 ∧
    getDB { txHandle := none } GormConn.root = GormConn.root :=
  ⟨(C8_RunInTx_GetDB_spec 5 { txHandle := some 3 } GormConn.root).1,
   (C8_RunInTx_GetDB_spec 5 { txHandle := some 3 } GormConn.root).2.1 3 rfl,
   (C8_RunInTx_GetDB_spec 0 { txHandle := none } GormConn.root).2.2 rfl⟩

/-- A pending CREATE_ORDER approval (id 1) over a one-item EXPORT order
(quantity 2) of a product with stock 10: the double-approval failing input. -/
def racePendingApproval : ApprovalRequest :=
  { id := 1
    requestType := "CREATE_ORDER"
    referenceID := 10
    requestData := { taxRuleID := none, sideFees := none }
    status := "PENDING"
    requestedBy := none
    approvedBy := none
    approvedAt := none
    rejectionReason := "" }

def raceOrder : Order :=
  { id := 10, orderCode := "ORD-1", type := "EXPORT", status := "PENDING_APPROVAL", note := "" }

def raceItem : OrderItem :=
  { orderID := 10, productID := 20, quantity := 2, unitPrice := 5 }

def raceProduct : Product :=
  { id := 20, sku := "SKU-1", name := "Widget", currentStock := 10, price := 5 }

def raceState : DBState :=
  { approvals := [racePendingApproval]
    orders := [raceOrder]
    orderItems := [raceItem]
    products := [raceProduct]
    invTxs := []
    invoices := []
    taxRules := []
    expenses := []
    audits := [] }

/-- C1: evaluation of the code at the failing input. Two concurrent
ApproveRequest calls on the same pending request, interleaved as
read1, read2, commit1, commit2 — an interleaving the code admits because the
status re-check reads the row without FOR UPDATE — both return success, the
product's stock is adjusted twice (10 to 6), and two inventory-transaction
and invoice rows are committed; the claim says exactly one success, one
AlreadyResolved error, and one stock adjustment. -/
theorem C1_double_approval_race :
    (exceptIsOk (approveRace (fun _ => 0) "20250101" 100 7 8 1 2 3 raceState).1,
     exceptIsOk (approveRace (fun _ => 0) "20250101" 100 7 8 1 2 3 raceState).2.1,
     ((approveRace (fun _ => 0) "20250101" 100 7 8 1 2 3 raceState).2.2.products.map
        Product.currentStock),
     (approveRace (fun _ => 0) "20250101" 100 7 8 1 2 3 raceState).2.2.invTxs.length,
     (approveRace (fun _ => 0) "20250101" 100 7 8 1 2 3 raceState).2.2.invoices.length) =
    (true, true, [6], 2, 2) := by
  rfl

end Backend
